import Mathlib

/-!
Shallow embedding of the brick-breaker physics and collision engine
(src/game/physics.py, src/game/entities.py, src/game/game_logic.py and
src/config/settings.py), together with theorems checking the stated
properties of the collision engine and the forward simulators.

Python float arithmetic is modelled exactly: sqrt-free code over the
rationals, the paddle code (which calls math.hypot, a true square root)
over the reals.  Python int() truncation toward zero is modelled by pyInt.
-/

namespace BrickGame

attribute [local semireducible] Rat.add Rat.sub Rat.mul Rat.inv Rat.ofScientific

/-- Python int() applied to a float: truncation toward zero. -/
def pyInt {α : Type} [LinearOrderedField α] [FloorRing α] (q : α) : ℤ :=
  if q < 0 then ⌈q⌉ else ⌊q⌋

/-- An axis-aligned pygame.Rect: integer position and size. -/
structure Rect where
  x : ℤ
  y : ℤ
  w : ℤ
  h : ℤ
  deriving DecidableEq, Repr

/-- pygame Rect.centerx: x + w / 2 with C integer (truncating) division. -/
def Rect.centerx (r : Rect) : ℤ := r.x + r.w / 2

/-- pygame Rect.centery: y + h / 2 with C integer (truncating) division. -/
def Rect.centery (r : Rect) : ℤ := r.y + r.h / 2

/-- pygame Rect.colliderect: strict overlap on both axes after normalising
negative sizes; rects with a zero width or height never collide. -/
def Rect.collides (a b : Rect) : Bool :=
  if a.w = 0 ∨ a.h = 0 ∨ b.w = 0 ∨ b.h = 0 then false
  else
    decide (min a.x (a.x + a.w) < max b.x (b.x + b.w)) &&
    decide (min b.x (b.x + b.w) < max a.x (a.x + a.w)) &&
    decide (min a.y (a.y + a.h) < max b.y (b.y + b.h)) &&
    decide (min b.y (b.y + b.h) < max a.y (a.y + a.h))

/-- For rects of positive size, colliderect is the plain strict-overlap test. -/
theorem Rect.collides_pos (a b : Rect) (ha1 : 0 < a.w) (ha2 : 0 < a.h)
    (hb1 : 0 < b.w) (hb2 : 0 < b.h) :
    Rect.collides a b =
      (decide (a.x < b.x + b.w) && decide (b.x < a.x + a.w) &&
       decide (a.y < b.y + b.h) && decide (b.y < a.y + a.h)) := by
  unfold Rect.collides
  rw [if_neg (by push_neg; omega)]
  have h1 : min a.x (a.x + a.w) = a.x := min_eq_left (by omega)
  have h2 : max b.x (b.x + b.w) = b.x + b.w := max_eq_right (by omega)
  have h3 : min b.x (b.x + b.w) = b.x := min_eq_left (by omega)
  have h4 : max a.x (a.x + a.w) = a.x + a.w := max_eq_right (by omega)
  have h5 : min a.y (a.y + a.h) = a.y := min_eq_left (by omega)
  have h6 : max b.y (b.y + b.h) = b.y + b.h := max_eq_right (by omega)
  have h7 : min b.y (b.y + b.h) = b.y := min_eq_left (by omega)
  have h8 : max a.y (a.y + a.h) = a.y + a.h := max_eq_right (by omega)
  rw [h1, h2, h3, h4, h5, h6, h7, h8]

/-! ### Entity state (src/game/entities.py) -/

/-- Ball state: center position, velocity, integer radius and the transient
power-up scale (attribute _powerup_scale, default 1.0).  The numeric type is
a parameter so that the sqrt-free code can live over the rationals and the
paddle code over the reals. -/
structure Ball (α : Type) where
  x : α
  y : α
  vx : α
  vy : α
  radius : ℤ
  powerupScale : α
  deriving DecidableEq, Repr

/-- Brick state: integer geometry plus the hit (destroyed) and special flags. -/
structure Brick where
  x : ℤ
  y : ℤ
  width : ℤ
  height : ℤ
  hit : Bool
  isSpecial : Bool
  deriving DecidableEq, Repr

/-- Paddle state: top-left corner, overall width and leg height (all ints). -/
structure Paddle where
  x : ℤ
  y : ℤ
  width : ℤ
  height : ℤ
  deriving DecidableEq, Repr

/-- Ball.rect(): the bounding rectangle used by the live brick collision;
it uses the base radius only, never the power-up scale. -/
def Ball.rect {α : Type} [LinearOrderedField α] [FloorRing α] (b : Ball α) : Rect :=
  ⟨pyInt (b.x - (b.radius : α)), pyInt (b.y - (b.radius : α)),
   b.radius * 2, b.radius * 2⟩

/-- Squared speed of the ball; |v| is its square root. -/
def Ball.speedSq {α : Type} [LinearOrderedField α] (b : Ball α) : α :=
  b.vx ^ 2 + b.vy ^ 2

/-- The brick rectangle pygame.Rect(b.x, b.y, b.width, b.height). -/
def Brick.rect (b : Brick) : Rect := ⟨b.x, b.y, b.width, b.height⟩

/-! ### Grid constants (src/config/settings.py) -/

def ROWS : ℕ := 5
def COLS : ℕ := 10
def WINDOW_WIDTH : ℤ := 800
def WINDOW_HEIGHT : ℤ := 600

/-! ### Live collision engine (src/game/physics.py) -/

/-- check_wall_collision: clamp-and-negate against the left, right and top
boundaries; returns the collided flag and the updated ball. -/
def check_wall_collision {α : Type} [LinearOrderedField α]
    (b : Ball α) (width height : ℤ) : Bool × Ball α :=
  let p1 : Bool × Ball α :=
    if b.x - (b.radius : α) ≤ 0 then
      (true, { b with x := (b.radius : α), vx := -b.vx })
    else if b.x + (b.radius : α) ≥ (width : α) then
      (true, { b with x := ((width - b.radius : ℤ) : α), vx := -b.vx })
    else (false, b)
  let b1 := p1.2
  if b1.y - (b1.radius : α) ≤ 0 then
    (true, { b1 with y := (b1.radius : α), vy := -b1.vy })
  else (p1.1, b1)

/-- The single-axis velocity flip applied on a brick hit: vx flips if the
horizontal distance from the ball center to the brick center (a float,
brick.x + brick.width / 2) exceeds the vertical one, else vy flips. -/
def brickFlip {α : Type} [LinearOrderedField α] (b : Ball α) (br : Brick) : Ball α :=
  if |((br.x : α) + (br.width : α) / 2) - b.x| >
     |((br.y : α) + (br.height : α) / 2) - b.y| then
    { b with vx := -b.vx }
  else
    { b with vy := -b.vy }

/-- check_brick_collision: scan the brick list in order, find the first
non-hit brick whose rect intersects the ball rect, flip the velocity axis
with the larger center-to-center distance, and return the brick index with
the updated ball.  Auxiliary recursion carrying the current index. -/
def brickScan {α : Type} [LinearOrderedField α] [FloorRing α]
    (b : Ball α) : List Brick → ℕ → Option (ℕ × Ball α)
  | [], _ => none
  | br :: rest, i =>
    if br.hit then brickScan b rest (i + 1)
    else if (Ball.rect b).collides br.rect then some (i, brickFlip b br)
    else brickScan b rest (i + 1)

/-- check_brick_collision over the whole list (index base 0). -/
def check_brick_collision {α : Type} [LinearOrderedField α] [FloorRing α]
    (b : Ball α) (bricks : List Brick) : Option (ℕ × Ball α) :=
  brickScan b bricks 0

/-- Mark the brick at index i as hit (hit_brick.hit = True in
_handle_collisions); out-of-range indices leave the list unchanged. -/
def markHitAt (bricks : List Brick) (i : ℕ) : List Brick :=
  match bricks.get? i with
  | some br => bricks.set i { br with hit := true }
  | none => bricks

/-- The brick phase of BrickBreakerGame._handle_collisions: run the brick
collision check and mark the returned brick as hit. -/
def handleBrickPhase {α : Type} [LinearOrderedField α] [FloorRing α]
    (b : Ball α) (bricks : List Brick) : Ball α × List Brick :=
  match check_brick_collision b bricks with
  | some (i, b1) => (b1, markHitAt bricks i)
  | none => (b, bricks)

/-- One clear step of _handle_special_brick: if (nr, nc) is inside the grid
and the brick there is not yet hit, mark it hit. -/
def clearAt (bs : List Brick) (nr nc : ℤ) : List Brick :=
  if 0 ≤ nr ∧ nr < (ROWS : ℤ) ∧ 0 ≤ nc ∧ nc < (COLS : ℤ) then
    match bs.get? ((nr * (COLS : ℤ) + nc).toNat) with
    | some br =>
      if br.hit then bs
      else bs.set ((nr * (COLS : ℤ) + nc).toNat) { br with hit := true }
    | none => bs
  else bs

/-- The (dr, dc) offsets visited by the nested loops of
_handle_special_brick, in source order. -/
def clearOffsets : List (ℤ × ℤ) :=
  [(-1, -1), (-1, 0), (-1, 1), (0, -1), (0, 0), (0, 1), (1, -1), (1, 0), (1, 1)]

/-- _handle_special_brick, 3x3 clearing part: idx is the list index of the
destroyed special brick; r = idx // COLS, c = idx % COLS. -/
def handleSpecialBrick (bricks : List Brick) (idx : ℕ) : List Brick :=
  let r : ℤ := (idx : ℤ) / (COLS : ℤ)
  let c : ℤ := (idx : ℤ) % (COLS : ℤ)
  clearOffsets.foldl (fun bs p => clearAt bs (r + p.1) (c + p.2)) bricks

/-! ### Paddle (horseshoe) collision, over the reals (math.hypot = sqrt) -/

/-- Paddle leg thickness: max(8, int(paddle.width * 0.18)). -/
noncomputable def paddleThickness (p : Paddle) : ℤ :=
  max 8 (pyInt ((p.width : ℝ) * (18 / 100)))

/-- Total paddle height: int(leg_h + outer_r * 2.0). -/
noncomputable def paddleTotalH (p : Paddle) : ℤ :=
  pyInt ((p.height : ℝ) + (p.width : ℝ) / 2 * 2)

/-- The left leg rectangle of the horseshoe paddle. -/
noncomputable def paddleLeftRect (p : Paddle) (px : ℤ) : Rect :=
  ⟨px, p.y, paddleThickness p, paddleTotalH p⟩

/-- The right leg rectangle of the horseshoe paddle. -/
noncomputable def paddleRightRect (p : Paddle) (px : ℤ) : Rect :=
  ⟨px + p.width - paddleThickness p, p.y, paddleThickness p, paddleTotalH p⟩

/-- _do_reflect: specular reflection of (vx, vy) about the normal (nx, ny);
returns none when the normal has zero length (the guard in the source). -/
noncomputable def do_reflect (vx vy nx ny : ℝ) : Option (ℝ × ℝ) :=
  let nLen := Real.sqrt (nx ^ 2 + ny ^ 2)
  if nLen = 0 then none
  else
    let nX := nx / nLen
    let nY := ny / nLen
    let vDotN := vx * nX + vy * nY
    some (vx - 2 * vDotN * nX, vy - 2 * vDotN * nY)

/-- The common hit-resolution code shared verbatim by the leg-rectangle and
semicircle branches of check_paddle_collision: given the pre-fallback
normal (dx0, dy0), its length dist0 = math.hypot(dx0, dy0), and the overlap
threshold rad, apply the zero-distance fallback normal (0, -1), reflect the
velocity with _do_reflect, and push the ball out by the overlap when it is
positive.  Returns the did flag of _do_reflect and the updated ball. -/
noncomputable def resolveHit (b : Ball ℝ) (dx0 dy0 dist0 rad : ℝ) : Bool × Ball ℝ :=
  let nx := if dist0 = 0 then 0 else dx0
  let ny := if dist0 = 0 then -1 else dy0
  let dist := if dist0 = 0 then 1 else dist0
  let refl0 := do_reflect b.vx b.vy nx ny
  let v1 := refl0.getD (b.vx, b.vy)
  let overlap := rad - dist
  let nLen := if Real.sqrt (nx ^ 2 + ny ^ 2) = 0 then 1 else Real.sqrt (nx ^ 2 + ny ^ 2)
  if 0 < overlap then
    (refl0.isSome, { b with vx := v1.1, vy := v1.2,
                            x := b.x + nx / nLen * overlap, y := b.y + ny / nLen * overlap })
  else (refl0.isSome, { b with vx := v1.1, vy := v1.2 })

/-- The closest point of a rectangle to the ball center (per-axis clamping). -/
noncomputable def legClosest (b : Ball ℝ) (rect : Rect) : ℝ × ℝ :=
  (max (rect.x : ℝ) (min b.x ((rect.x + rect.w : ℤ) : ℝ)),
   max (rect.y : ℝ) (min b.y ((rect.y + rect.h : ℤ) : ℝ)))

/-- Distance from the ball center to the closest point of a rectangle. -/
noncomputable def legDist (b : Ball ℝ) (rect : Rect) : ℝ :=
  Real.sqrt ((b.x - (legClosest b rect).1) ^ 2 + (b.y - (legClosest b rect).2) ^ 2)

/-- Leg-rectangle sub-test of check_paddle_collision: hit when the closest
point is within the radius; none when this sub-shape is not hit. -/
noncomputable def resolveLeg (b : Ball ℝ) (rect : Rect) : Option (Bool × Ball ℝ) :=
  if legDist b rect ≤ (b.radius : ℝ) then
    some (resolveHit b (b.x - (legClosest b rect).1) (b.y - (legClosest b rect).2)
      (legDist b rect) (b.radius : ℝ))
  else none

/-- Center of the bottom semicircle of the horseshoe paddle. -/
noncomputable def circleCenter (p : Paddle) (px : ℤ) : ℝ × ℝ :=
  ((px : ℝ) + (p.width : ℝ) / 2,
   (p.y : ℝ) + (p.height : ℝ) + (p.width : ℝ) / 2)

/-- Distance from the ball center to the semicircle center. -/
noncomputable def circleDist (b : Ball ℝ) (p : Paddle) (px : ℤ) : ℝ :=
  Real.sqrt ((b.x - (circleCenter p px).1) ^ 2 + (b.y - (circleCenter p px).2) ^ 2)

/-- Bottom-semicircle sub-test of check_paddle_collision: hit when the
center distance is at most outer_r + radius; none when not hit. -/
noncomputable def resolveCircle (b : Ball ℝ) (p : Paddle) (px : ℤ) : Option (Bool × Ball ℝ) :=
  if circleDist b p px ≤ (p.width : ℝ) / 2 + (b.radius : ℝ) then
    some (resolveHit b (b.x - (circleCenter p px).1) (b.y - (circleCenter p px).2)
      (circleDist b p px) ((p.width : ℝ) / 2 + (b.radius : ℝ)))
  else none


/-- The semicircle phase of check_paddle_collision, entered only when no leg
resolution set the collided flag. -/
noncomputable def paddleCirclePhase (b : Ball ℝ) (p : Paddle) (px : ℤ) : Bool × Ball ℝ :=
  match resolveCircle b p px with
  | some (did, b1) => (did, b1)
  | none => (false, b)

/-- check_paddle_collision: nothing happens unless the ball moves downward;
then the left leg, the right leg and the bottom semicircle are tested in
that order, the leg loop breaking at the first hit sub-shape. -/
noncomputable def check_paddle_collision (b : Ball ℝ) (p : Paddle) (px : ℤ) : Bool × Ball ℝ :=
  if b.vy ≤ 0 then (false, b)
  else
    match resolveLeg b (paddleLeftRect p px) with
    | some (did, b1) => if did then (true, b1) else paddleCirclePhase b1 p px
    | none =>
      match resolveLeg b (paddleRightRect p px) with
      | some (did, b1) => if did then (true, b1) else paddleCirclePhase b1 p px
      | none => paddleCirclePhase b p px

/-! ### Reflection preserves speed (helper lemmas) -/

/-- Reflection about a unit normal preserves the squared speed. -/
theorem reflect_norm_sq (vx vy ux uy : ℝ) (h : ux ^ 2 + uy ^ 2 = 1) :
    (vx - 2 * (vx * ux + vy * uy) * ux) ^ 2 +
      (vy - 2 * (vx * ux + vy * uy) * uy) ^ 2 = vx ^ 2 + vy ^ 2 := by
  linear_combination (4 * (vx * ux + vy * uy) ^ 2) * h

/-- A successful _do_reflect preserves the squared speed. -/
theorem do_reflect_speedSq {vx vy nx ny vx1 vy1 : ℝ}
    (h : do_reflect vx vy nx ny = some (vx1, vy1)) :
    vx1 ^ 2 + vy1 ^ 2 = vx ^ 2 + vy ^ 2 := by
  unfold do_reflect at h
  by_cases h0 : Real.sqrt (nx ^ 2 + ny ^ 2) = 0
  · simp [h0] at h
  · rw [if_neg h0] at h
    have hsq : Real.sqrt (nx ^ 2 + ny ^ 2) ^ 2 = nx ^ 2 + ny ^ 2 :=
      Real.sq_sqrt (by positivity)
    have hunit : (nx / Real.sqrt (nx ^ 2 + ny ^ 2)) ^ 2 +
        (ny / Real.sqrt (nx ^ 2 + ny ^ 2)) ^ 2 = 1 := by
      have hne : nx ^ 2 + ny ^ 2 ≠ 0 := fun hz => h0 (by rw [hz, Real.sqrt_zero])
      rw [div_pow, div_pow, div_add_div_same, hsq]
      exact div_self hne
    obtain ⟨h1, h2⟩ := Prod.mk.injEq .. ▸ Option.some.inj h
    rw [← h1, ← h2]
    exact reflect_norm_sq vx vy _ _ hunit

/-- Fallback-normal square root: sqrt(0 ^ 2 + (-1) ^ 2) = 1. -/
theorem sqrt_fallback : Real.sqrt ((0 : ℝ) ^ 2 + (-1 : ℝ) ^ 2) = 1 := by
  norm_num

/-- _do_reflect on the fallback normal (0, -1) flips vy and keeps vx. -/
theorem do_reflect_fallback (vx vy : ℝ) :
    do_reflect vx vy 0 (-1) = some (vx, -vy) := by
  unfold do_reflect
  rw [sqrt_fallback, if_neg one_ne_zero]
  simp only [Option.some.injEq, Prod.mk.injEq]
  constructor
  · ring
  · ring

/-- _do_reflect succeeds whenever the normal is nonzero, and the source
always hands it a nonzero normal; on a hit, resolveHit therefore reports
did = true and preserves squared speed, radius and scale. -/
theorem resolveHit_props (b : Ball ℝ) (dx0 dy0 dist0 rad : ℝ)
    (hd : dist0 = Real.sqrt (dx0 ^ 2 + dy0 ^ 2)) :
    (resolveHit b dx0 dy0 dist0 rad).1 = true ∧
    (resolveHit b dx0 dy0 dist0 rad).2.speedSq = b.speedSq ∧
    (resolveHit b dx0 dy0 dist0 rad).2.radius = b.radius ∧
    (resolveHit b dx0 dy0 dist0 rad).2.powerupScale = b.powerupScale := by
  by_cases h0 : dist0 = 0
  · subst h0
    unfold resolveHit
    simp only [eq_self_iff_true, if_true, do_reflect_fallback, sqrt_fallback, one_ne_zero,
      if_false, Option.isSome_some, Option.getD_some]
    split_ifs with hov
    · refine ⟨rfl, ?_, rfl, rfl⟩
      simp only [Ball.speedSq]
      ring
    · refine ⟨rfl, ?_, rfl, rfl⟩
      simp only [Ball.speedSq]
      ring
  · unfold resolveHit
    have hS : Real.sqrt (dx0 ^ 2 + dy0 ^ 2) ≠ 0 := hd ▸ h0
    have hrefl : do_reflect b.vx b.vy dx0 dy0 =
        some (b.vx - 2 * (b.vx * (dx0 / Real.sqrt (dx0 ^ 2 + dy0 ^ 2)) +
                b.vy * (dy0 / Real.sqrt (dx0 ^ 2 + dy0 ^ 2))) *
              (dx0 / Real.sqrt (dx0 ^ 2 + dy0 ^ 2)),
              b.vy - 2 * (b.vx * (dx0 / Real.sqrt (dx0 ^ 2 + dy0 ^ 2)) +
                b.vy * (dy0 / Real.sqrt (dx0 ^ 2 + dy0 ^ 2))) *
              (dy0 / Real.sqrt (dx0 ^ 2 + dy0 ^ 2))) := by
      unfold do_reflect
      rw [if_neg hS]
    have hsp := do_reflect_speedSq hrefl
    simp only [if_neg h0, hrefl]
    split_ifs with hov
    · refine ⟨rfl, ?_, rfl, rfl⟩
      simpa only [Ball.speedSq, Option.getD_some] using hsp
    · refine ⟨rfl, ?_, rfl, rfl⟩
      simpa only [Ball.speedSq, Option.getD_some] using hsp

/-- resolveHit at an exactly coinciding center (dist0 = 0) uses the
fallback normal (0, -1): it flips vy, keeps vx and x, and pushes the ball
up by the overlap rad - 1. -/
theorem resolveHit_center (b : Ball ℝ) (dx0 dy0 rad : ℝ) (hrad : 1 < rad) :
    resolveHit b dx0 dy0 0 rad =
      (true, { b with vy := -b.vy, y := b.y - (rad - 1) }) := by
  unfold resolveHit
  simp only [eq_self_iff_true, if_true, do_reflect_fallback, sqrt_fallback, one_ne_zero,
    if_false, Option.isSome_some, Option.getD_some]
  rw [if_pos (by linarith : (0 : ℝ) < rad - 1)]
  simp only [Prod.mk.injEq, Ball.mk.injEq, Option.getD_some, true_and]
  refine ⟨by norm_num, by ring, trivial⟩

/-- A hit leg sub-shape always reflects (did = true) and preserves squared
speed, radius and scale. -/
theorem resolveLeg_props {b : Ball ℝ} {rect : Rect} {d : Bool} {b1 : Ball ℝ}
    (h : resolveLeg b rect = some (d, b1)) :
    d = true ∧ b1.speedSq = b.speedSq ∧ b1.radius = b.radius ∧
    b1.powerupScale = b.powerupScale := by
  unfold resolveLeg at h
  split_ifs at h with hc
  have hEq := Option.some.inj h
  have hp := resolveHit_props b (b.x - (legClosest b rect).1)
    (b.y - (legClosest b rect).2) (legDist b rect) (b.radius : ℝ) rfl
  rw [hEq] at hp
  simpa using hp

/-- A hit semicircle always reflects (did = true) and preserves squared
speed, radius and scale. -/
theorem resolveCircle_props {b : Ball ℝ} {p : Paddle} {px : ℤ} {d : Bool} {b1 : Ball ℝ}
    (h : resolveCircle b p px = some (d, b1)) :
    d = true ∧ b1.speedSq = b.speedSq ∧ b1.radius = b.radius ∧
    b1.powerupScale = b.powerupScale := by
  unfold resolveCircle at h
  split_ifs at h with hc
  have hEq := Option.some.inj h
  have hp := resolveHit_props b (b.x - (circleCenter p px).1)
    (b.y - (circleCenter p px).2) (circleDist b p px)
    ((p.width : ℝ) / 2 + (b.radius : ℝ)) rfl
  rw [hEq] at hp
  simpa using hp

/-- If the semicircle phase reports a collision, squared speed is preserved. -/
theorem paddleCirclePhase_speedSq (b : Ball ℝ) (p : Paddle) (px : ℤ)
    (h : (paddleCirclePhase b p px).1 = true) :
    (paddleCirclePhase b p px).2.speedSq = b.speedSq := by
  unfold paddleCirclePhase at h ⊢
  cases hC : resolveCircle b p px with
  | none =>
    rw [hC] at h
  | some pr =>
    obtain ⟨d, b1⟩ := pr
    exact (resolveCircle_props hC).2.1

/-- Wall reflection only negates velocity components, so squared speed is
always preserved (collision or not). -/
theorem check_wall_collision_speedSq {α : Type} [LinearOrderedField α]
    (b : Ball α) (w ht : ℤ) :
    ((check_wall_collision b w ht).2).speedSq = b.speedSq := by
  unfold check_wall_collision
  dsimp only
  split_ifs <;> simp [Ball.speedSq, neg_sq]

/-- Paddle reflection preserves squared speed whenever a collision is
reported. -/
theorem check_paddle_collision_speedSq (b : Ball ℝ) (p : Paddle) (px : ℤ)
    (h : (check_paddle_collision b p px).1 = true) :
    ((check_paddle_collision b p px).2).speedSq = b.speedSq := by
  unfold check_paddle_collision at h ⊢
  by_cases hv : b.vy ≤ 0
  · rw [if_pos hv] at h
    exact Bool.noConfusion h
  · rw [if_neg hv] at h ⊢
    cases hL : resolveLeg b (paddleLeftRect p px) with
    | some pr =>
      obtain ⟨d, b1⟩ := pr
      obtain ⟨hd, hs, _, _⟩ := resolveLeg_props hL
      subst hd
      exact hs
    | none =>
      rw [hL] at h
      cases hR : resolveLeg b (paddleRightRect p px) with
      | some pr =>
        obtain ⟨d, b1⟩ := pr
        obtain ⟨hd, hs, _, _⟩ := resolveLeg_props hR
        subst hd
        exact hs
      | none =>
        rw [hR] at h
        exact paddleCirclePhase_speedSq b p px h

/-- Thickness of the concrete paddle 350/550/108/27: max(8, int(108 * 0.18)). -/
theorem paddleThicknessEval : paddleThickness ⟨350, 550, 108, 27⟩ = 19 := by
  unfold paddleThickness pyInt
  rw [if_neg (by norm_num)]
  have hf : ⌊((108 : ℤ) : ℝ) * (18 / 100)⌋ = 19 := by
    rw [Int.floor_eq_iff]
    norm_num
  rw [hf]
  decide

/-- Total height of the concrete paddle: int(27 + 54 * 2.0). -/
theorem paddleTotalHEval : paddleTotalH ⟨350, 550, 108, 27⟩ = 135 := by
  unfold paddleTotalH pyInt
  rw [if_neg (by norm_num)]
  rw [Int.floor_eq_iff]
  norm_num

/-- The left leg rectangle of the concrete paddle drawn at x = 350. -/
theorem paddleLeftRectEval : paddleLeftRect ⟨350, 550, 108, 27⟩ 350 = ⟨350, 550, 19, 135⟩ := by
  unfold paddleLeftRect
  rw [paddleThicknessEval, paddleTotalHEval]

/-- The ball at (360, 560) lies inside that left leg rectangle, so the
closest point is the center itself. -/
theorem legClosestEval : legClosest ⟨360, 560, 0, 6, 32, 1⟩ ⟨350, 550, 19, 135⟩ =
    ((360 : ℝ), (560 : ℝ)) := by
  unfold legClosest
  norm_num

/-- Hence the leg distance is zero (exact-center collision). -/
theorem legDistEval : legDist ⟨360, 560, 0, 6, 32, 1⟩ ⟨350, 550, 19, 135⟩ = 0 := by
  unfold legDist
  rw [legClosestEval]
  norm_num

/-- Concrete paddle-collision evaluation used by witnesses: a downward ball
whose center lies strictly inside the left leg rectangle takes the
zero-distance fallback normal (0, -1), so vy flips, vx stays, and the ball
is pushed up by radius - 1 = 31. -/
theorem paddleEvalLeft :
    check_paddle_collision ⟨360, 560, 0, 6, 32, 1⟩ ⟨350, 550, 108, 27⟩ 350 =
      (true, ⟨360, 529, 0, -6, 32, 1⟩) := by
  have hres : resolveLeg ⟨360, 560, 0, 6, 32, 1⟩ ⟨350, 550, 19, 135⟩ =
      some (true, ⟨360, 529, 0, -6, 32, 1⟩) := by
    unfold resolveLeg
    rw [legDistEval, if_pos (by norm_num : (0 : ℝ) ≤ (((32 : ℤ) : ℝ)))]
    rw [resolveHit_center _ _ _ _ (by norm_num : (1 : ℝ) < (((32 : ℤ) : ℝ)))]
    norm_num
  unfold check_paddle_collision
  rw [if_neg (by norm_num : ¬ ((6 : ℝ) ≤ 0)), paddleLeftRectEval, hres]
  rfl

/-- C1: wall and paddle collision resolution preserves the speed magnitude
of the ball: whenever check_wall_collision or check_paddle_collision
reports a collision, the resulting velocity has the same squared speed
(hence the same magnitude |v|) as before, exactly, in the exact-arithmetic
model of the float code. -/
theorem C1_reflection_preserves_speed :
    (∀ (b : Ball ℚ) (w h : ℤ), (check_wall_collision b w h).1 = true →
      ((check_wall_collision b w h).2).speedSq = b.speedSq) ∧
    (∀ (b : Ball ℝ) (p : Paddle) (px : ℤ), (check_paddle_collision b p px).1 = true →
      ((check_paddle_collision b p px).2).speedSq = b.speedSq ∧
      Real.sqrt ((check_paddle_collision b p px).2).speedSq = Real.sqrt b.speedSq) := by
  refine ⟨fun b w h _ => check_wall_collision_speedSq b w h, fun b p px hc => ?_⟩
  have hs := check_paddle_collision_speedSq b p px hc
  exact ⟨hs, by rw [hs]⟩

/-- Witness for C1 at concrete inputs: a ball crossing the left wall, and a
downward ball hitting the paddle leg, both with speed preserved. -/
theorem C1_witness :
    ((check_wall_collision (⟨-1, 50, -3, 4, 10, 1⟩ : Ball ℚ) 800 600).1 = true ∧
      ((check_wall_collision (⟨-1, 50, -3, 4, 10, 1⟩ : Ball ℚ) 800 600).2).speedSq =
        (Ball.speedSq ⟨-1, 50, -3, 4, 10, 1⟩)) ∧
    ((check_paddle_collision ⟨360, 560, 0, 6, 32, 1⟩ ⟨350, 550, 108, 27⟩ 350).1 = true ∧
      ((check_paddle_collision ⟨360, 560, 0, 6, 32, 1⟩ ⟨350, 550, 108, 27⟩ 350).2).speedSq =
        (Ball.speedSq ⟨360, 560, 0, 6, 32, 1⟩)) := by
  constructor
  · exact ⟨by decide, C1_reflection_preserves_speed.1 ⟨-1, 50, -3, 4, 10, 1⟩ 800 600 (by decide)⟩
  · have hfst : (check_paddle_collision ⟨360, 560, 0, 6, 32, 1⟩ ⟨350, 550, 108, 27⟩ 350).1 = true := by
      rw [paddleEvalLeft]
    exact ⟨hfst, (C1_reflection_preserves_speed.2 ⟨360, 560, 0, 6, 32, 1⟩ ⟨350, 550, 108, 27⟩ 350 hfst).1⟩

/-! ### Forward simulators (predict_ball_landing_x and
predict_landing_x_trajectory, src/game/physics.py) -/

/-- Bounded linear search for the least n with d ≤ (n · step) ^ 2, which is
ceil(sqrt d / step) for 0 ≤ d and 0 < step: the value of
int(math.ceil(speed / step)) with speed = sqrt d, computed without a real
square root. -/
def ceilSpeedDivAux (d : ℚ) (step : ℕ) : ℕ → ℕ → ℕ
  | 0, n => n
  | fuel + 1, n =>
    if d ≤ ((n * step : ℕ) : ℚ) ^ 2 then n else ceilSpeedDivAux d step fuel (n + 1)

/-- steps = max(1, int(math.ceil(speed / step))) where speed ^ 2 = d. -/
def pySteps (d : ℚ) (step : ℕ) : ℕ :=
  max 1 (ceilSpeedDivAux d step (⌈d⌉.toNat + 1) 0)

/-- The values a landing-prediction loop reads each iteration: window size,
paddle.y (read live each sub-step), and the cached rectangles of the
non-hit bricks. -/
structure SimEnv where
  width : ℤ
  height : ℤ
  paddleY : ℤ
  brickRects : List Rect
  deriving Repr

/-- The copied ball state: the x, y, vx, vy locals of the predictors. -/
structure SimState (α : Type) where
  x : α
  y : α
  vx : α
  vy : α
  deriving DecidableEq, Repr

/-- ball_future_rect = pygame.Rect(int(x - r), int(y - r), int(2r), int(2r)). -/
def ballFutureRect {α : Type} [LinearOrderedField α] [FloorRing α]
    (x y : α) (r : ℤ) : Rect :=
  ⟨pyInt (x - (r : α)), pyInt (y - (r : α)), 2 * r, 2 * r⟩

/-- First cached brick rect intersecting the ball rect (the inner brick
scan of the predictors). -/
def firstHitRect (br : Rect) : List Rect → Option Rect
  | [] => none
  | rect :: rest => if br.collides rect then some rect else firstHitRect br rest

/-- Outcome of one sub-step of the landing predictors: continue with an
updated state and a bounce increment, return the landing x, or lose the
ball below the screen. -/
inductive StepOut (α : Type) where
  | cont (s : SimState α) (db : ℕ)
  | landed (k : ℤ)
  | lost
  deriving DecidableEq, Repr

/-- One sub-step of the landing predictors after the position advance by
(dx, dy): left/right wall clamp-and-negate, top wall clamp-and-negate,
return int(x) once the descending ball reaches paddle.y, else bounce off
the first intersecting cached brick rect (single axis flip toward the
integer brick center), else lose the ball when below the screen. -/
def substep {α : Type} [LinearOrderedField α] [FloorRing α]
    (env : SimEnv) (r : ℤ) (dx dy : α) (s : SimState α) : StepOut α :=
  let x := s.x + dx
  let y := s.y + dy
  if x - (r : α) ≤ 0 then .cont ⟨(r : α), y, -s.vx, s.vy⟩ 1
  else if x + (r : α) ≥ (env.width : α) then
    .cont ⟨((env.width - r : ℤ) : α), y, -s.vx, s.vy⟩ 1
  else if y - (r : α) ≤ 0 then .cont ⟨x, (r : α), s.vx, -s.vy⟩ 1
  else if 0 < s.vy ∧ y + (r : α) ≥ (env.paddleY : α) then .landed (pyInt x)
  else
    match firstHitRect (ballFutureRect x y r) env.brickRects with
    | some rect =>
      if |((rect.centerx : ℤ) : α) - x| > |((rect.centery : ℤ) : α) - y| then
        .cont ⟨x, y, -s.vx, s.vy⟩ 1
      else
        .cont ⟨x, y, s.vx, -s.vy⟩ 1
    | none => if y - (r : α) > (env.height : α) then .lost else .cont ⟨x, y, s.vx, s.vy⟩ 0

/-- Outcome of the inner for-loop over the sub-steps. -/
inductive InnerOut (α : Type) where
  | done (s : SimState α) (b : ℕ)
  | landed (k : ℤ) (b : ℕ)
  | lost (b : ℕ)
  deriving Repr

/-- The inner for s in range(steps) loop of the landing predictors,
accumulating the bounce count. -/
def runSteps {α : Type} [LinearOrderedField α] [FloorRing α]
    (env : SimEnv) (r : ℤ) (dx dy : α) : ℕ → SimState α → ℕ → InnerOut α
  | 0, s, b => .done s b
  | n + 1, s, b =>
    match substep env r dx dy s with
    | .cont s1 db => runSteps env r dx dy n s1 (b + db)
    | .landed k => .landed k b
    | .lost => .lost b

/-- The macro loop of predict_landing_x_trajectory: while it < max_iter and
bounces <= max_bounces, with fuel = max_iter - it.  Returns the landing
result, the number of macro iterations executed, and the final bounces. -/
def landingLoop (env : SimEnv) (r : ℤ) (stepc maxB : ℕ) :
    ℕ → SimState ℚ → ℕ → Option ℤ × ℕ × ℕ
  | 0, _, b => (none, 0, b)
  | fuel + 1, s, b =>
    if b ≤ maxB then
      let d := s.vx ^ 2 + s.vy ^ 2
      if d = 0 then (none, 1, b)
      else
        let n := pySteps d stepc
        match runSteps env r (s.vx / (n : ℚ)) (s.vy / (n : ℚ)) n s b with
        | .landed k b1 => (some k, 1, b1)
        | .lost b1 => (none, 1, b1)
        | .done s1 b1 =>
          let rest := landingLoop env r stepc maxB fuel s1 b1
          (rest.1, rest.2.1 + 1, rest.2.2)
    else (none, 0, b)

/-- The macro loop of predict_ball_landing_x: identical to landingLoop but
with no bounce cap (the source checks only it < max_iter). -/
def landingLoopNB (env : SimEnv) (r : ℤ) (stepc : ℕ) :
    ℕ → SimState ℚ → ℕ → Option ℤ × ℕ × ℕ
  | 0, _, b => (none, 0, b)
  | fuel + 1, s, b =>
    let d := s.vx ^ 2 + s.vy ^ 2
    if d = 0 then (none, 1, b)
    else
      let n := pySteps d stepc
      match runSteps env r (s.vx / (n : ℚ)) (s.vy / (n : ℚ)) n s b with
      | .landed k b1 => (some k, 1, b1)
      | .lost b1 => (none, 1, b1)
      | .done s1 b1 =>
        let rest := landingLoopNB env r stepc fuel s1 b1
        (rest.1, rest.2.1 + 1, rest.2.2)

/-- The cached rectangles of the non-hit bricks, in list order. -/
def liveBrickRects (bricks : List Brick) : List Rect :=
  (bricks.filter (fun b => !b.hit)).map Brick.rect

/-- predict_ball_landing_x, instrumented: the landing result together with
the macro-iteration count and the final bounce count.  The effective
radius is int(ball.radius * ball._powerup_scale); start_paddle_x is a
parameter the source never reads. -/
def predict_ball_landing_x_stats (ball : Ball ℚ) (bricks : List Brick)
    (width height : ℤ) (paddle : Paddle) (startPaddleX : ℤ)
    (maxIter stepc : ℕ) : Option ℤ × ℕ × ℕ :=
  let r := pyInt ((ball.radius : ℚ) * ball.powerupScale)
  if ball.vx = 0 ∧ ball.vy = 0 then (none, 0, 0)
  else
    landingLoopNB ⟨width, height, paddle.y, liveBrickRects bricks⟩ r stepc maxIter
      ⟨ball.x, ball.y, ball.vx, ball.vy⟩ 0

/-- predict_ball_landing_x: the landing result alone. -/
def predict_ball_landing_x (ball : Ball ℚ) (bricks : List Brick)
    (width height : ℤ) (paddle : Paddle) (startPaddleX : ℤ)
    (maxIter stepc : ℕ) : Option ℤ :=
  (predict_ball_landing_x_stats ball bricks width height paddle startPaddleX maxIter stepc).1

/-- predict_landing_x_trajectory, instrumented: result, macro-iteration
count, final bounces.  paddle_draw_x is a parameter the source never reads. -/
def predict_landing_x_trajectory_stats (ball : Ball ℚ) (bricks : List Brick)
    (width height : ℤ) (paddle : Paddle) (paddleDrawX : ℤ)
    (maxB stepc maxIter : ℕ) : Option ℤ × ℕ × ℕ :=
  let r := pyInt ((ball.radius : ℚ) * ball.powerupScale)
  if ball.vx = 0 ∧ ball.vy = 0 then (none, 0, 0)
  else
    landingLoop ⟨width, height, paddle.y, liveBrickRects bricks⟩ r stepc maxB maxIter
      ⟨ball.x, ball.y, ball.vx, ball.vy⟩ 0

/-- predict_landing_x_trajectory: the landing result alone. -/
def predict_landing_x_trajectory (ball : Ball ℚ) (bricks : List Brick)
    (width height : ℤ) (paddle : Paddle) (paddleDrawX : ℤ)
    (maxB stepc maxIter : ℕ) : Option ℤ :=
  (predict_landing_x_trajectory_stats ball bricks width height paddle paddleDrawX
    maxB stepc maxIter).1

/-! ### Paddle-collision case-analysis helpers -/

/-- check_paddle_collision when the left leg test returns a resolution. -/
theorem check_paddle_left_some {b : Ball ℝ} {p : Paddle} {px : ℤ} {d : Bool} {b1 : Ball ℝ}
    (hv : ¬ b.vy ≤ 0) (h : resolveLeg b (paddleLeftRect p px) = some (d, b1)) :
    check_paddle_collision b p px =
      if d then (true, b1) else paddleCirclePhase b1 p px := by
  unfold check_paddle_collision
  rw [if_neg hv, h]

/-- check_paddle_collision when only the right leg test returns a resolution. -/
theorem check_paddle_right_some {b : Ball ℝ} {p : Paddle} {px : ℤ} {d : Bool} {b1 : Ball ℝ}
    (hv : ¬ b.vy ≤ 0) (hL : resolveLeg b (paddleLeftRect p px) = none)
    (h : resolveLeg b (paddleRightRect p px) = some (d, b1)) :
    check_paddle_collision b p px =
      if d then (true, b1) else paddleCirclePhase b1 p px := by
  unfold check_paddle_collision
  rw [if_neg hv, hL, h]

/-- check_paddle_collision when neither leg test hits. -/
theorem check_paddle_legs_none {b : Ball ℝ} {p : Paddle} {px : ℤ}
    (hv : ¬ b.vy ≤ 0) (hL : resolveLeg b (paddleLeftRect p px) = none)
    (hR : resolveLeg b (paddleRightRect p px) = none) :
    check_paddle_collision b p px = paddleCirclePhase b p px := by
  unfold check_paddle_collision
  rw [if_neg hv, hL, hR]

/-- The leg sub-test as an if on the hit condition. -/
theorem resolveLeg_pos {b : Ball ℝ} {rect : Rect}
    (h : legDist b rect ≤ (b.radius : ℝ)) :
    resolveLeg b rect = some (resolveHit b (b.x - (legClosest b rect).1)
      (b.y - (legClosest b rect).2) (legDist b rect) (b.radius : ℝ)) := by
  unfold resolveLeg
  rw [if_pos h]

/-- The leg sub-test misses when the distance exceeds the radius. -/
theorem resolveLeg_neg {b : Ball ℝ} {rect : Rect}
    (h : ¬ legDist b rect ≤ (b.radius : ℝ)) :
    resolveLeg b rect = none := by
  unfold resolveLeg
  rw [if_neg h]

/-- The semicircle sub-test as an if on the hit condition. -/
theorem resolveCircle_pos {b : Ball ℝ} {p : Paddle} {px : ℤ}
    (h : circleDist b p px ≤ (p.width : ℝ) / 2 + (b.radius : ℝ)) :
    resolveCircle b p px = some (resolveHit b (b.x - (circleCenter p px).1)
      (b.y - (circleCenter p px).2) (circleDist b p px)
      ((p.width : ℝ) / 2 + (b.radius : ℝ))) := by
  unfold resolveCircle
  rw [if_pos h]

/-- The semicircle sub-test misses when the distance exceeds the sum of radii. -/
theorem resolveCircle_neg {b : Ball ℝ} {p : Paddle} {px : ℤ}
    (h : ¬ circleDist b p px ≤ (p.width : ℝ) / 2 + (b.radius : ℝ)) :
    resolveCircle b p px = none := by
  unfold resolveCircle
  rw [if_neg h]

/-- When the ball moves downward and the left leg is hit, the left leg
resolution is the whole outcome, regardless of the other sub-shapes. -/
theorem check_paddle_hit_left {b : Ball ℝ} {p : Paddle} {px : ℤ}
    (hv : ¬ b.vy ≤ 0) (hL : legDist b (paddleLeftRect p px) ≤ (b.radius : ℝ)) :
    check_paddle_collision b p px =
      (true, (resolveHit b (b.x - (legClosest b (paddleLeftRect p px)).1)
        (b.y - (legClosest b (paddleLeftRect p px)).2)
        (legDist b (paddleLeftRect p px)) (b.radius : ℝ)).2) := by
  rcases hX : resolveHit b (b.x - (legClosest b (paddleLeftRect p px)).1)
      (b.y - (legClosest b (paddleLeftRect p px)).2)
      (legDist b (paddleLeftRect p px)) (b.radius : ℝ) with ⟨d, b1⟩
  have hprops := resolveHit_props b (b.x - (legClosest b (paddleLeftRect p px)).1)
    (b.y - (legClosest b (paddleLeftRect p px)).2)
    (legDist b (paddleLeftRect p px)) (b.radius : ℝ) rfl
  rw [hX] at hprops
  have hd : d = true := hprops.1
  subst hd
  rw [check_paddle_left_some hv (by rw [resolveLeg_pos hL, hX]), if_pos rfl]

/-- When the ball moves downward, the left leg misses and the right leg is
hit, the right leg resolution is the whole outcome. -/
theorem check_paddle_hit_right {b : Ball ℝ} {p : Paddle} {px : ℤ}
    (hv : ¬ b.vy ≤ 0) (hL : ¬ legDist b (paddleLeftRect p px) ≤ (b.radius : ℝ))
    (hR : legDist b (paddleRightRect p px) ≤ (b.radius : ℝ)) :
    check_paddle_collision b p px =
      (true, (resolveHit b (b.x - (legClosest b (paddleRightRect p px)).1)
        (b.y - (legClosest b (paddleRightRect p px)).2)
        (legDist b (paddleRightRect p px)) (b.radius : ℝ)).2) := by
  rcases hX : resolveHit b (b.x - (legClosest b (paddleRightRect p px)).1)
      (b.y - (legClosest b (paddleRightRect p px)).2)
      (legDist b (paddleRightRect p px)) (b.radius : ℝ) with ⟨d, b1⟩
  have hprops := resolveHit_props b (b.x - (legClosest b (paddleRightRect p px)).1)
    (b.y - (legClosest b (paddleRightRect p px)).2)
    (legDist b (paddleRightRect p px)) (b.radius : ℝ) rfl
  rw [hX] at hprops
  have hd : d = true := hprops.1
  subst hd
  rw [check_paddle_right_some hv (resolveLeg_neg hL) (by rw [resolveLeg_pos hR, hX]),
    if_pos rfl]

/-- When the ball moves downward, both legs miss and the semicircle is hit,
the semicircle resolution is the whole outcome. -/
theorem check_paddle_hit_circle {b : Ball ℝ} {p : Paddle} {px : ℤ}
    (hv : ¬ b.vy ≤ 0) (hL : ¬ legDist b (paddleLeftRect p px) ≤ (b.radius : ℝ))
    (hR : ¬ legDist b (paddleRightRect p px) ≤ (b.radius : ℝ))
    (hC : circleDist b p px ≤ (p.width : ℝ) / 2 + (b.radius : ℝ)) :
    check_paddle_collision b p px =
      (true, (resolveHit b (b.x - (circleCenter p px).1)
        (b.y - (circleCenter p px).2) (circleDist b p px)
        ((p.width : ℝ) / 2 + (b.radius : ℝ))).2) := by
  rcases hX : resolveHit b (b.x - (circleCenter p px).1)
      (b.y - (circleCenter p px).2) (circleDist b p px)
      ((p.width : ℝ) / 2 + (b.radius : ℝ)) with ⟨d, b1⟩
  have hprops := resolveHit_props b (b.x - (circleCenter p px).1)
    (b.y - (circleCenter p px).2) (circleDist b p px)
    ((p.width : ℝ) / 2 + (b.radius : ℝ)) rfl
  rw [hX] at hprops
  have hd : d = true := hprops.1
  subst hd
  rw [check_paddle_legs_none hv (resolveLeg_neg hL) (resolveLeg_neg hR)]
  unfold paddleCirclePhase
  rw [resolveCircle_pos hC, hX]

/-- C5: check_paddle_collision reports no collision and leaves the ball
unchanged whenever vy ≤ 0; when vy > 0 it tests the three sub-shapes in
the fixed order left leg rectangle, right leg rectangle, bottom
semicircle, and resolves only the first sub-shape that hits (the
semicircle is tested only if neither leg rectangle hit). -/
theorem C5_paddle_order (b : Ball ℝ) (p : Paddle) (px : ℤ) :
    (b.vy ≤ 0 → check_paddle_collision b p px = (false, b)) ∧
    (¬ b.vy ≤ 0 →
      (legDist b (paddleLeftRect p px) ≤ (b.radius : ℝ) →
        check_paddle_collision b p px =
          (true, (resolveHit b (b.x - (legClosest b (paddleLeftRect p px)).1)
            (b.y - (legClosest b (paddleLeftRect p px)).2)
            (legDist b (paddleLeftRect p px)) (b.radius : ℝ)).2)) ∧
      (¬ legDist b (paddleLeftRect p px) ≤ (b.radius : ℝ) →
        legDist b (paddleRightRect p px) ≤ (b.radius : ℝ) →
        check_paddle_collision b p px =
          (true, (resolveHit b (b.x - (legClosest b (paddleRightRect p px)).1)
            (b.y - (legClosest b (paddleRightRect p px)).2)
            (legDist b (paddleRightRect p px)) (b.radius : ℝ)).2)) ∧
      (¬ legDist b (paddleLeftRect p px) ≤ (b.radius : ℝ) →
        ¬ legDist b (paddleRightRect p px) ≤ (b.radius : ℝ) →
        circleDist b p px ≤ (p.width : ℝ) / 2 + (b.radius : ℝ) →
        check_paddle_collision b p px =
          (true, (resolveHit b (b.x - (circleCenter p px).1)
            (b.y - (circleCenter p px).2) (circleDist b p px)
            ((p.width : ℝ) / 2 + (b.radius : ℝ))).2)) ∧
      (¬ legDist b (paddleLeftRect p px) ≤ (b.radius : ℝ) →
        ¬ legDist b (paddleRightRect p px) ≤ (b.radius : ℝ) →
        ¬ circleDist b p px ≤ (p.width : ℝ) / 2 + (b.radius : ℝ) →
        check_paddle_collision b p px = (false, b))) := by
  refine ⟨fun hv => ?_,
    fun hv => ⟨fun hL => check_paddle_hit_left hv hL,
      fun hL hR => check_paddle_hit_right hv hL hR,
      fun hL hR hC => check_paddle_hit_circle hv hL hR hC,
      fun hL hR hC => ?_⟩⟩
  · unfold check_paddle_collision
    rw [if_pos hv]
  · rw [check_paddle_legs_none hv (resolveLeg_neg hL) (resolveLeg_neg hR)]
    unfold paddleCirclePhase
    rw [resolveCircle_neg hC]

/-- Witness for C5: an upward-moving ball is untouched, and the concrete
left-leg hit resolves through the left leg sub-shape. -/
theorem C5_witness :
    check_paddle_collision ⟨360, 560, 0, -6, 32, 1⟩ ⟨350, 550, 108, 27⟩ 350 =
      (false, ⟨360, 560, 0, -6, 32, 1⟩) ∧
    check_paddle_collision ⟨360, 560, 0, 6, 32, 1⟩ ⟨350, 550, 108, 27⟩ 350 =
      (true, (resolveHit ⟨360, 560, 0, 6, 32, 1⟩
        ((360 : ℝ) - (legClosest ⟨360, 560, 0, 6, 32, 1⟩
          (paddleLeftRect ⟨350, 550, 108, 27⟩ 350)).1)
        ((560 : ℝ) - (legClosest ⟨360, 560, 0, 6, 32, 1⟩
          (paddleLeftRect ⟨350, 550, 108, 27⟩ 350)).2)
        (legDist ⟨360, 560, 0, 6, 32, 1⟩ (paddleLeftRect ⟨350, 550, 108, 27⟩ 350))
        ((32 : ℤ) : ℝ)).2) := by
  constructor
  · exact (C5_paddle_order ⟨360, 560, 0, -6, 32, 1⟩ ⟨350, 550, 108, 27⟩ 350).1
      (by norm_num)
  · exact ((C5_paddle_order ⟨360, 560, 0, 6, 32, 1⟩ ⟨350, 550, 108, 27⟩ 350).2
      (by norm_num)).1 (by rw [paddleLeftRectEval, legDistEval]; norm_num)

/-- C9: when a collision normal would have zero length (ball center
coinciding with the closest point of a leg rectangle, or with the
semicircle center), the paddle resolution does not fail: it substitutes
the fallback normal (0, -1) and completes the reflection (vy flips, vx
kept) and the de-penetration (push straight up by the overlap) with it. -/
theorem C9_zero_normal_fallback (b : Ball ℝ) (p : Paddle) (px : ℤ) :
    (0 < b.vy → 1 < b.radius →
      ((paddleLeftRect p px).x : ℝ) ≤ b.x →
      b.x ≤ (((paddleLeftRect p px).x + (paddleLeftRect p px).w : ℤ) : ℝ) →
      ((paddleLeftRect p px).y : ℝ) ≤ b.y →
      b.y ≤ (((paddleLeftRect p px).y + (paddleLeftRect p px).h : ℤ) : ℝ) →
      check_paddle_collision b p px =
        (true, { b with vy := -b.vy, y := b.y - ((b.radius : ℝ) - 1) })) ∧
    (0 < b.vy → 1 < (p.width : ℝ) / 2 + (b.radius : ℝ) →
      ¬ legDist b (paddleLeftRect p px) ≤ (b.radius : ℝ) →
      ¬ legDist b (paddleRightRect p px) ≤ (b.radius : ℝ) →
      b.x = (circleCenter p px).1 → b.y = (circleCenter p px).2 →
      check_paddle_collision b p px =
        (true, { b with vy := -b.vy,
                        y := b.y - ((p.width : ℝ) / 2 + (b.radius : ℝ) - 1) })) := by
  constructor
  · intro hv hrad hx1 hx2 hy1 hy2
    have hcl : legClosest b (paddleLeftRect p px) = (b.x, b.y) := by
      unfold legClosest
      rw [min_eq_left hx2, max_eq_right hx1, min_eq_left hy2, max_eq_right hy1]
    have hld : legDist b (paddleLeftRect p px) = 0 := by
      unfold legDist
      rw [hcl]
      simp
    have hradR : (1 : ℝ) < (b.radius : ℝ) := by exact_mod_cast hrad
    have hres : resolveLeg b (paddleLeftRect p px) =
        some (true, { b with vy := -b.vy, y := b.y - ((b.radius : ℝ) - 1) }) := by
      rw [resolveLeg_pos (by rw [hld]; linarith), hld,
        resolveHit_center _ _ _ _ hradR]
    rw [check_paddle_left_some (not_le.mpr hv) hres, if_pos rfl]
  · intro hv hrad hL hR hcx hcy
    have hcd : circleDist b p px = 0 := by
      unfold circleDist
      rw [hcx, hcy]
      simp
    have hres : resolveCircle b p px =
        some (true, { b with vy := -b.vy,
                             y := b.y - ((p.width : ℝ) / 2 + (b.radius : ℝ) - 1) }) := by
      rw [resolveCircle_pos (by rw [hcd]; linarith), hcd,
        resolveHit_center _ _ _ _ hrad]
    rw [check_paddle_legs_none (not_le.mpr hv) (resolveLeg_neg hL) (resolveLeg_neg hR)]
    unfold paddleCirclePhase
    rw [hres]

/-- Witness for C9: the concrete exact-center left-leg collision takes the
(0, -1) fallback and is resolved, not failed. -/
theorem C9_witness :
    check_paddle_collision ⟨360, 560, 0, 6, 32, 1⟩ ⟨350, 550, 108, 27⟩ 350 =
      (true, { x := 360, y := (560 : ℝ) - (((32 : ℤ) : ℝ) - 1), vx := 0, vy := -(6 : ℝ),
               radius := 32, powerupScale := 1 }) := by
  have h := (C9_zero_normal_fallback ⟨360, 560, 0, 6, 32, 1⟩ ⟨350, 550, 108, 27⟩ 350).1
    (by norm_num) (by norm_num)
    (by rw [paddleLeftRectEval]; norm_num)
    (by rw [paddleLeftRectEval]; norm_num)
    (by rw [paddleLeftRectEval]; norm_num)
    (by rw [paddleLeftRectEval]; norm_num)
  exact h

/-! ### Brick collision: first hit in list order (C3) -/

/-- The brick scan returns the first (lowest-index) non-hit intersecting
brick, offset by the running index. -/
theorem brickScan_first (b : Ball ℚ) (l : List Brick) :
    ∀ (i : ℕ) (hi : i < l.length) (k : ℕ),
      (l.get ⟨i, hi⟩).hit = false →
      (Ball.rect b).collides (l.get ⟨i, hi⟩).rect = true →
      (∀ j (hj : j < i), (l.get ⟨j, hj.trans hi⟩).hit = true ∨
        (Ball.rect b).collides (l.get ⟨j, hj.trans hi⟩).rect = false) →
      brickScan b l k = some (k + i, brickFlip b (l.get ⟨i, hi⟩)) := by
  induction l with
  | nil => intro i hi; simp at hi
  | cons br rest ih =>
    intro i hi k hhit hcol hfirst
    cases i with
    | zero =>
      have hb : br.hit = false := hhit
      have hc : (Ball.rect b).collides br.rect = true := hcol
      unfold brickScan
      rw [if_neg (by simp [hb]), if_pos hc]
      rfl
    | succ i =>
      have h0 : br.hit = true ∨ (Ball.rect b).collides br.rect = false :=
        hfirst 0 (Nat.succ_pos i)
      have hrest : brickScan b rest (k + 1) =
          some (k + 1 + i, brickFlip b (rest.get ⟨i, Nat.lt_of_succ_lt_succ hi⟩)) := by
        apply ih i (Nat.lt_of_succ_lt_succ hi) (k + 1) hhit hcol
        intro j hj
        exact hfirst (j + 1) (Nat.succ_lt_succ hj)
      have hgoal : (some (k + 1 + i, brickFlip b (rest.get ⟨i, Nat.lt_of_succ_lt_succ hi⟩))
            : Option (ℕ × Ball ℚ)) =
          some (k + (i + 1), brickFlip b (((br :: rest) : List Brick).get ⟨i + 1, hi⟩)) := by
        rw [show k + 1 + i = k + (i + 1) from by omega]
        rfl
      unfold brickScan
      rcases h0 with h0 | h0
      · rw [if_pos h0, hrest]
        exact hgoal
      · by_cases hb : br.hit = true
        · rw [if_pos hb, hrest]
          exact hgoal
        · rw [if_neg hb, if_neg (by simp [h0]), hrest]
          exact hgoal

/-- Marking the hit brick changes exactly the element at its index. -/
theorem markHitAt_get_self (bricks : List Brick) (i : ℕ) :
    (markHitAt bricks i).get? i =
      (bricks.get? i).map (fun br => { br with hit := true }) := by
  unfold markHitAt
  cases h : bricks.get? i with
  | none =>
    rw [h]
    rfl
  | some br =>
    simp only [Option.map_some']
    rw [List.get?_set_eq, h]
    rfl

/-- Marking the hit brick leaves every other index unchanged. -/
theorem markHitAt_get_ne (bricks : List Brick) (i j : ℕ) (h : j ≠ i) :
    (markHitAt bricks i).get? j = bricks.get? j := by
  unfold markHitAt
  cases hg : bricks.get? i with
  | none => rfl
  | some br => exact List.get?_set_ne _ _ (fun hh => h hh.symm)

/-- C3: in one collision pass over a ball overlapping any number of
non-destroyed bricks, exactly the first brick in list order (the grid is
built row-major) whose bounding box intersects the ball rect is returned
and marked destroyed, exactly one velocity axis is flipped — vx if the
horizontal center distance exceeds the vertical one, else vy — and no
later brick is inspected (the scan result is determined by the first hit
alone). -/
theorem C3_first_brick_only (b : Ball ℚ) (bricks : List Brick) (i : ℕ) (hi : i < bricks.length)
    (hhit : (bricks.get ⟨i, hi⟩).hit = false)
    (hcol : (Ball.rect b).collides (bricks.get ⟨i, hi⟩).rect = true)
    (hfirst : ∀ j (hj : j < i), (bricks.get ⟨j, hj.trans hi⟩).hit = true ∨
      (Ball.rect b).collides (bricks.get ⟨j, hj.trans hi⟩).rect = false) :
    check_brick_collision b bricks = some (i, brickFlip b (bricks.get ⟨i, hi⟩)) ∧
    handleBrickPhase b bricks = (brickFlip b (bricks.get ⟨i, hi⟩), markHitAt bricks i) ∧
    (markHitAt bricks i).get? i = some { bricks.get ⟨i, hi⟩ with hit := true } ∧
    (∀ j, j ≠ i → (markHitAt bricks i).get? j = bricks.get? j) ∧
    (|((bricks.get ⟨i, hi⟩).x : ℚ) + ((bricks.get ⟨i, hi⟩).width : ℚ) / 2 - b.x| >
       |((bricks.get ⟨i, hi⟩).y : ℚ) + ((bricks.get ⟨i, hi⟩).height : ℚ) / 2 - b.y| →
      brickFlip b (bricks.get ⟨i, hi⟩) = { b with vx := -b.vx }) ∧
    (¬ (|((bricks.get ⟨i, hi⟩).x : ℚ) + ((bricks.get ⟨i, hi⟩).width : ℚ) / 2 - b.x| >
        |((bricks.get ⟨i, hi⟩).y : ℚ) + ((bricks.get ⟨i, hi⟩).height : ℚ) / 2 - b.y|) →
      brickFlip b (bricks.get ⟨i, hi⟩) = { b with vy := -b.vy }) := by
  have hscan : check_brick_collision b bricks =
      some (i, brickFlip b (bricks.get ⟨i, hi⟩)) := by
    unfold check_brick_collision
    have := brickScan_first b bricks i hi 0 hhit hcol hfirst
    simpa using this
  refine ⟨hscan, ?_, ?_, fun j hj => markHitAt_get_ne bricks i j hj, ?_, ?_⟩
  · unfold handleBrickPhase
    rw [hscan]
  · rw [markHitAt_get_self, List.get?_eq_get hi]
    rfl
  · intro hgt
    unfold brickFlip
    rw [if_pos hgt]
  · intro hgt
    unfold brickFlip
    rw [if_neg hgt]

/-- Witness for C3: a ball overlapping three bricks of which the first is
already destroyed; the scan returns index 1 and marking destroys exactly
that brick. -/
theorem C3_witness :
    check_brick_collision (⟨100, 100, 3, 4, 10, 1⟩ : Ball ℚ)
        [⟨95, 95, 30, 10, true, false⟩, ⟨95, 85, 30, 10, false, false⟩,
         ⟨95, 105, 30, 10, false, false⟩] =
      some (1, brickFlip (⟨100, 100, 3, 4, 10, 1⟩ : Ball ℚ) ⟨95, 85, 30, 10, false, false⟩) ∧
    (markHitAt [⟨95, 95, 30, 10, true, false⟩, ⟨95, 85, 30, 10, false, false⟩,
        ⟨95, 105, 30, 10, false, false⟩] 1).get? 1 =
      some ⟨95, 85, 30, 10, true, false⟩ := by
  have h := C3_first_brick_only (⟨100, 100, 3, 4, 10, 1⟩ : Ball ℚ)
    [⟨95, 95, 30, 10, true, false⟩, ⟨95, 85, 30, 10, false, false⟩,
     ⟨95, 105, 30, 10, false, false⟩] 1 (by norm_num)
    (by decide) (by decide)
    (fun j hj => by
      have hj0 : j = 0 := by omega
      subst hj0
      refine Or.inl ?_
      show (Brick.mk 95 95 30 10 true false).hit = true
      rfl)
  exact ⟨h.1, h.2.2.1⟩

/-! ### Special brick 3x3 clear (C4) -/

/-- Marking twice is marking once. -/
theorem map_hitify_idem (o : Option Brick) :
    (o.map (fun br => { br with hit := true })).map (fun br => { br with hit := true }) =
      o.map (fun br => { br with hit := true }) := by
  cases o <;> rfl

/-- An already-hit brick is unchanged by marking. -/
theorem hitify_of_hit {br : Brick} (h : br.hit = true) :
    ({ br with hit := true } : Brick) = br := by
  cases br
  simp_all

/-- What one clearAt step does to each index. -/
theorem clearAt_get? (bs : List Brick) (nr nc : ℤ) (j : ℕ) :
    (clearAt bs nr nc).get? j =
      if 0 ≤ nr ∧ nr < (ROWS : ℤ) ∧ 0 ≤ nc ∧ nc < (COLS : ℤ) ∧
          j = (nr * (COLS : ℤ) + nc).toNat
      then (bs.get? j).map (fun br => { br with hit := true })
      else bs.get? j := by
  unfold clearAt
  by_cases hb : 0 ≤ nr ∧ nr < (ROWS : ℤ) ∧ 0 ≤ nc ∧ nc < (COLS : ℤ)
  · rw [if_pos hb]
    by_cases hj : j = (nr * (COLS : ℤ) + nc).toNat
    · rw [if_pos ⟨hb.1, hb.2.1, hb.2.2.1, hb.2.2.2, hj⟩]
      subst hj
      cases hg : bs.get? ((nr * (COLS : ℤ) + nc).toNat) with
      | none =>
        rw [hg]
        rfl
      | some br =>
        dsimp only
        by_cases hbr : br.hit = true
        · rw [if_pos hbr, hg]
          simp [hitify_of_hit hbr]
        · rw [if_neg hbr]
          rw [List.get?_set_eq, hg]
          rfl
    · rw [if_neg (fun hcon => hj hcon.2.2.2.2)]
      cases hg : bs.get? ((nr * (COLS : ℤ) + nc).toNat) with
      | none => rfl
      | some br =>
        dsimp only
        by_cases hbr : br.hit = true
        · rw [if_pos hbr]
        · rw [if_neg hbr]
          exact List.get?_set_ne _ _ (fun hh => hj hh.symm)
  · rw [if_neg hb,
      if_neg (fun hcon => hb ⟨hcon.1, hcon.2.1, hcon.2.2.1, hcon.2.2.2.1⟩)]

/-- What the fold over the nine (dr, dc) offsets does to each index. -/
theorem clearFold_get? (r c : ℤ) (L : List (ℤ × ℤ)) :
    ∀ (bs : List Brick) (j : ℕ),
      (L.foldl (fun acc p => clearAt acc (r + p.1) (c + p.2)) bs).get? j =
        if ∃ p ∈ L, 0 ≤ r + p.1 ∧ r + p.1 < (ROWS : ℤ) ∧ 0 ≤ c + p.2 ∧
            c + p.2 < (COLS : ℤ) ∧ j = ((r + p.1) * (COLS : ℤ) + (c + p.2)).toNat
        then (bs.get? j).map (fun br => { br with hit := true })
        else bs.get? j := by
  induction L with
  | nil =>
    intro bs j
    simp
  | cons q L ih =>
    intro bs j
    rw [List.foldl_cons, ih (clearAt bs (r + q.1) (c + q.2)) j, clearAt_get?]
    by_cases h1 : 0 ≤ r + q.1 ∧ r + q.1 < (ROWS : ℤ) ∧ 0 ≤ c + q.2 ∧
        c + q.2 < (COLS : ℤ) ∧ j = ((r + q.1) * (COLS : ℤ) + (c + q.2)).toNat
    · have hC : ∃ p ∈ q :: L, 0 ≤ r + p.1 ∧ r + p.1 < (ROWS : ℤ) ∧ 0 ≤ c + p.2 ∧
          c + p.2 < (COLS : ℤ) ∧ j = ((r + p.1) * (COLS : ℤ) + (c + p.2)).toNat :=
        ⟨q, List.mem_cons_self q L, h1⟩
      by_cases h2 : ∃ p ∈ L, 0 ≤ r + p.1 ∧ r + p.1 < (ROWS : ℤ) ∧ 0 ≤ c + p.2 ∧
          c + p.2 < (COLS : ℤ) ∧ j = ((r + p.1) * (COLS : ℤ) + (c + p.2)).toNat
      · rw [if_pos h1, if_pos h2, if_pos hC, map_hitify_idem]
      · rw [if_pos h1, if_neg h2, if_pos hC]
    · by_cases h2 : ∃ p ∈ L, 0 ≤ r + p.1 ∧ r + p.1 < (ROWS : ℤ) ∧ 0 ≤ c + p.2 ∧
          c + p.2 < (COLS : ℤ) ∧ j = ((r + p.1) * (COLS : ℤ) + (c + p.2)).toNat
      · have hC : ∃ p ∈ q :: L, 0 ≤ r + p.1 ∧ r + p.1 < (ROWS : ℤ) ∧ 0 ≤ c + p.2 ∧
            c + p.2 < (COLS : ℤ) ∧ j = ((r + p.1) * (COLS : ℤ) + (c + p.2)).toNat := by
          rcases h2 with ⟨p, hp, hP⟩
          exact ⟨p, List.mem_cons_of_mem q hp, hP⟩
        rw [if_neg h1, if_pos h2, if_pos hC]
      · have hnC : ¬ ∃ p ∈ q :: L, 0 ≤ r + p.1 ∧ r + p.1 < (ROWS : ℤ) ∧ 0 ≤ c + p.2 ∧
            c + p.2 < (COLS : ℤ) ∧ j = ((r + p.1) * (COLS : ℤ) + (c + p.2)).toNat := by
          rintro ⟨p, hp, hP⟩
          rcases List.mem_cons.mp hp with hpq | hpL
          · exact h1 (hpq ▸ hP)
          · exact h2 ⟨p, hpL, hP⟩
        rw [if_neg h1, if_neg h2, if_neg hnC]

/-- The nine-offset existence condition is exactly the 3x3 window of the
claim: row and column each within distance 1, inside the grid. -/
theorem window_iff (idx j : ℕ) (hidx : idx < ROWS * COLS) (hj : j < ROWS * COLS) :
    (∃ p ∈ clearOffsets,
        0 ≤ (idx : ℤ) / (COLS : ℤ) + p.1 ∧ (idx : ℤ) / (COLS : ℤ) + p.1 < (ROWS : ℤ) ∧
        0 ≤ (idx : ℤ) % (COLS : ℤ) + p.2 ∧ (idx : ℤ) % (COLS : ℤ) + p.2 < (COLS : ℤ) ∧
        j = (((idx : ℤ) / (COLS : ℤ) + p.1) * (COLS : ℤ) +
          ((idx : ℤ) % (COLS : ℤ) + p.2)).toNat) ↔
      (((j : ℤ) / (COLS : ℤ) - (idx : ℤ) / (COLS : ℤ)).natAbs ≤ 1 ∧
       ((j : ℤ) % (COLS : ℤ) - (idx : ℤ) % (COLS : ℤ)).natAbs ≤ 1) := by
  simp only [ROWS, COLS] at *
  constructor
  · rintro ⟨p, hp, h1, h2, h3, h4, h5⟩
    have hpr : (p.1 = -1 ∨ p.1 = 0 ∨ p.1 = 1) ∧ (p.2 = -1 ∨ p.2 = 0 ∨ p.2 = 1) := by
      fin_cases hp <;> norm_num
    have hjz : (j : ℤ) = ((idx : ℤ) / 10 + p.1) * 10 + ((idx : ℤ) % 10 + p.2) := by
      rw [h5, Int.toNat_of_nonneg (by nlinarith)]
      norm_cast
    rcases hpr with ⟨hp1, hp2⟩
    omega
  · rintro ⟨h1, h2⟩
    refine ⟨((j : ℤ) / 10 - (idx : ℤ) / 10, (j : ℤ) % 10 - (idx : ℤ) % 10), ?_, ?_⟩
    · have hd1 : (j : ℤ) / 10 - (idx : ℤ) / 10 = -1 ∨ (j : ℤ) / 10 - (idx : ℤ) / 10 = 0 ∨
          (j : ℤ) / 10 - (idx : ℤ) / 10 = 1 := by omega
      have hd2 : (j : ℤ) % 10 - (idx : ℤ) % 10 = -1 ∨ (j : ℤ) % 10 - (idx : ℤ) % 10 = 0 ∨
          (j : ℤ) % 10 - (idx : ℤ) % 10 = 1 := by omega
      rcases hd1 with hd1 | hd1 | hd1 <;> rcases hd2 with hd2 | hd2 | hd2 <;>
        simp [clearOffsets, hd1, hd2, Prod.ext_iff]
    · refine ⟨by omega, by omega, by omega, by omega, by omega⟩

/-- clearAt preserves the list length. -/
theorem clearAt_length (bs : List Brick) (nr nc : ℤ) :
    (clearAt bs nr nc).length = bs.length := by
  unfold clearAt
  split_ifs
  · cases hg : bs.get? ((nr * (COLS : ℤ) + nc).toNat) with
    | none => rfl
    | some br =>
      dsimp only
      by_cases hbr : br.hit = true
      · rw [if_pos hbr]
      · rw [if_neg hbr, List.length_set]
  · rfl

/-- The offsets fold preserves the list length. -/
theorem clearFold_length (r c : ℤ) (L : List (ℤ × ℤ)) :
    ∀ (bs : List Brick),
      (L.foldl (fun acc p => clearAt acc (r + p.1) (c + p.2)) bs).length = bs.length := by
  induction L with
  | nil => intro bs; rfl
  | cons q L ih =>
    intro bs
    rw [List.foldl_cons, ih, clearAt_length]

/-- C4: destroying a special brick at list index idx (grid cell
(idx / COLS, idx % COLS)) marks destroyed every brick whose grid row and
column are each within distance 1 and inside the grid, and changes no
other list entry at all (in particular no destroyed flag outside the 3x3
window); the brick list keeps its length. -/
theorem C4_special_brick_window (bricks : List Brick) (idx : ℕ)
    (hlen : bricks.length = ROWS * COLS) (hidx : idx < ROWS * COLS) :
    (handleSpecialBrick bricks idx).length = bricks.length ∧
    (∀ j, j < ROWS * COLS →
      (handleSpecialBrick bricks idx).get? j =
        (if ((j : ℤ) / (COLS : ℤ) - (idx : ℤ) / (COLS : ℤ)).natAbs ≤ 1 ∧
            ((j : ℤ) % (COLS : ℤ) - (idx : ℤ) % (COLS : ℤ)).natAbs ≤ 1
         then (bricks.get? j).map (fun br => { br with hit := true })
         else bricks.get? j)) := by
  constructor
  · unfold handleSpecialBrick
    exact clearFold_length _ _ clearOffsets bricks
  · intro j hj
    unfold handleSpecialBrick
    rw [clearFold_get?]
    by_cases hw : ((j : ℤ) / (COLS : ℤ) - (idx : ℤ) / (COLS : ℤ)).natAbs ≤ 1 ∧
        ((j : ℤ) % (COLS : ℤ) - (idx : ℤ) % (COLS : ℤ)).natAbs ≤ 1
    · rw [if_pos ((window_iff idx j hidx hj).mpr hw), if_pos hw]
    · rw [if_neg (fun hcon => hw ((window_iff idx j hidx hj).mp hcon)), if_neg hw]

/-- Witness for C4 on a full 5 x 10 grid: clearing around index 11
(row 1, col 1) destroys the brick at index 12 (row 1, col 2) and leaves
index 25 (row 2, col 5) unchanged. -/
theorem C4_witness :
    (handleSpecialBrick (List.replicate 50 (Brick.mk 0 0 60 24 false false)) 11).get? 12 =
      some (Brick.mk 0 0 60 24 true false) ∧
    (handleSpecialBrick (List.replicate 50 (Brick.mk 0 0 60 24 false false)) 11).get? 25 =
      some (Brick.mk 0 0 60 24 false false) := by
  have h := C4_special_brick_window
    (List.replicate 50 (Brick.mk 0 0 60 24 false false)) 11
    (by simp [ROWS, COLS]) (by norm_num [ROWS, COLS])
  constructor
  · rw [h.2 12 (by norm_num [ROWS, COLS]), if_pos (by decide)]
    decide
  · rw [h.2 25 (by norm_num [ROWS, COLS]), if_neg (by decide)]
    decide

/-! ### Landing-x bound (C7) -/

/-- pyInt of a nonnegative value is nonnegative. -/
theorem pyInt_nonneg {q : ℚ} (h : 0 ≤ q) : 0 ≤ pyInt q := by
  unfold pyInt
  rw [if_neg (not_lt.mpr h)]
  exact Int.le_floor.mpr (by exact_mod_cast h)

/-- If a sub-step reports a landing, the landed x lies in [0, width]:
the landing branch is only reached when both wall tests failed, so the
advanced x is strictly between r and width - r. -/
theorem substep_landed_bounds (env : SimEnv) (r : ℤ) (dx dy : ℚ) (s : SimState ℚ) (k : ℤ)
    (hr : 0 ≤ r) (h : substep env r dx dy s = StepOut.landed k) :
    0 ≤ k ∧ k ≤ env.width := by
  simp only [substep] at h
  split_ifs at h with h1 h2 h3 h4
  · have hk : pyInt (s.x + dx) = k := by injection h
    have hx0 : (0 : ℚ) < s.x + dx := by
      have hlt : (r : ℚ) < s.x + dx := by linarith [not_le.mp h1]
      have hr' : (0 : ℚ) ≤ (r : ℚ) := by exact_mod_cast hr
      linarith
    have hxw : s.x + dx ≤ (env.width : ℚ) := by
      have h2' : s.x + dx + (r : ℚ) < (env.width : ℚ) := by
        have := not_le.mp h2
        linarith
      have hr' : (0 : ℚ) ≤ (r : ℚ) := by exact_mod_cast hr
      linarith
    rw [← hk]
    constructor
    · exact pyInt_nonneg hx0.le
    · unfold pyInt
      rw [if_neg (not_lt.mpr hx0.le)]
      calc ⌊s.x + dx⌋ ≤ ⌊((env.width : ℤ) : ℚ)⌋ := Int.floor_le_floor hxw
        _ = env.width := Int.floor_intCast env.width
  · cases hfr : firstHitRect (ballFutureRect (s.x + dx) (s.y + dy) r) env.brickRects with
    | some rect =>
      rw [hfr] at h
      dsimp only at h
      split_ifs at h <;> simp at h
    | none =>
      rw [hfr] at h
      dsimp only at h
      simp at h
  · cases hfr : firstHitRect (ballFutureRect (s.x + dx) (s.y + dy) r) env.brickRects with
    | some rect =>
      rw [hfr] at h
      dsimp only at h
      split_ifs at h <;> simp at h
    | none =>
      rw [hfr] at h
      dsimp only at h
      simp at h

/-- The inner loop inherits the landed bound from its sub-steps. -/
theorem runSteps_landed_bounds (env : SimEnv) (r : ℤ) (dx dy : ℚ) (hr : 0 ≤ r) :
    ∀ (n : ℕ) (s : SimState ℚ) (b : ℕ) (k : ℤ) (b1 : ℕ),
      runSteps env r dx dy n s b = InnerOut.landed k b1 → 0 ≤ k ∧ k ≤ env.width := by
  intro n
  induction n with
  | zero =>
    intro s b k b1 h
    simp [runSteps] at h
  | succ n ih =>
    intro s b k b1 h
    cases hsub : substep env r dx dy s with
    | cont s1 db =>
      simp only [runSteps, hsub] at h
      exact ih s1 (b + db) k b1 h
    | landed k0 =>
      simp only [runSteps, hsub, InnerOut.landed.injEq] at h
      obtain ⟨hk, _⟩ := h
      subst hk
      exact substep_landed_bounds env r dx dy s k0 hr hsub
    | lost =>
      simp only [runSteps, hsub] at h
      exact absurd h (by simp)

/-- The bounce-capped macro loop inherits the landed bound. -/
theorem landingLoop_some_bounds (env : SimEnv) (r : ℤ) (stepc maxB : ℕ) (hr : 0 ≤ r) :
    ∀ (fuel : ℕ) (s : SimState ℚ) (b : ℕ) (k : ℤ),
      (landingLoop env r stepc maxB fuel s b).1 = some k → 0 ≤ k ∧ k ≤ env.width := by
  intro fuel
  induction fuel with
  | zero =>
    intro s b k h
    simp [landingLoop] at h
  | succ fuel ih =>
    intro s b k h
    simp only [landingLoop] at h
    by_cases hcap : b ≤ maxB
    · rw [if_pos hcap] at h
      by_cases hd : s.vx ^ 2 + s.vy ^ 2 = 0
      · rw [if_pos hd] at h
        simp at h
      · rw [if_neg hd] at h
        cases hrun : runSteps env r
            (s.vx / ((pySteps (s.vx ^ 2 + s.vy ^ 2) stepc : ℕ) : ℚ))
            (s.vy / ((pySteps (s.vx ^ 2 + s.vy ^ 2) stepc : ℕ) : ℚ))
            (pySteps (s.vx ^ 2 + s.vy ^ 2) stepc) s b with
        | landed k0 b1 =>
          rw [hrun] at h
          simp only [Option.some.injEq] at h
          subst h
          exact runSteps_landed_bounds env r _ _ hr _ s b k0 b1 hrun
        | lost b1 =>
          rw [hrun] at h
          simp at h
        | done s1 b1 =>
          rw [hrun] at h
          exact ih s1 b1 k h
    · rw [if_neg hcap] at h
      simp at h

/-- The uncapped macro loop inherits the landed bound. -/
theorem landingLoopNB_some_bounds (env : SimEnv) (r : ℤ) (stepc : ℕ) (hr : 0 ≤ r) :
    ∀ (fuel : ℕ) (s : SimState ℚ) (b : ℕ) (k : ℤ),
      (landingLoopNB env r stepc fuel s b).1 = some k → 0 ≤ k ∧ k ≤ env.width := by
  intro fuel
  induction fuel with
  | zero =>
    intro s b k h
    simp [landingLoopNB] at h
  | succ fuel ih =>
    intro s b k h
    simp only [landingLoopNB] at h
    by_cases hd : s.vx ^ 2 + s.vy ^ 2 = 0
    · rw [if_pos hd] at h
      simp at h
    · rw [if_neg hd] at h
      cases hrun : runSteps env r
          (s.vx / ((pySteps (s.vx ^ 2 + s.vy ^ 2) stepc : ℕ) : ℚ))
          (s.vy / ((pySteps (s.vx ^ 2 + s.vy ^ 2) stepc : ℕ) : ℚ))
          (pySteps (s.vx ^ 2 + s.vy ^ 2) stepc) s b with
      | landed k0 b1 =>
        rw [hrun] at h
        simp only [Option.some.injEq] at h
        subst h
        exact runSteps_landed_bounds env r _ _ hr _ s b k0 b1 hrun
      | lost b1 =>
        rw [hrun] at h
        simp at h
      | done s1 b1 =>
        rw [hrun] at h
        exact ih s1 b1 k h

/-- C7: for window width W > 0 and a nonnegative effective ball radius
(radius >= 0, scale >= 0, 2r <= W), any landing x returned by
predict_ball_landing_x or predict_landing_x_trajectory lies in [0, W]. -/
theorem C7_landing_x_in_bounds (ball : Ball ℚ) (bricks : List Brick)
    (width height : ℤ) (paddle : Paddle) (px pdx : ℤ) (maxIter stepc maxB : ℕ) (k : ℤ)
    (hW : 0 < width) (hrad : 0 ≤ ball.radius) (hscale : 0 ≤ ball.powerupScale)
    (hdiam : 2 * pyInt ((ball.radius : ℚ) * ball.powerupScale) ≤ width) :
    (predict_ball_landing_x ball bricks width height paddle px maxIter stepc = some k →
      0 ≤ k ∧ k ≤ width) ∧
    (predict_landing_x_trajectory ball bricks width height paddle pdx maxB stepc maxIter =
        some k → 0 ≤ k ∧ k ≤ width) := by
  have hr : 0 ≤ pyInt ((ball.radius : ℚ) * ball.powerupScale) :=
    pyInt_nonneg (mul_nonneg (by exact_mod_cast hrad) hscale)
  constructor
  · intro h
    unfold predict_ball_landing_x predict_ball_landing_x_stats at h
    split_ifs at h with hv
    exact landingLoopNB_some_bounds
      ⟨width, height, paddle.y, liveBrickRects bricks⟩ _ stepc hr maxIter
      ⟨ball.x, ball.y, ball.vx, ball.vy⟩ 0 k h
  · intro h
    unfold predict_landing_x_trajectory predict_landing_x_trajectory_stats at h
    split_ifs at h with hv
    exact landingLoop_some_bounds
      ⟨width, height, paddle.y, liveBrickRects bricks⟩ _ stepc maxB hr maxIter
      ⟨ball.x, ball.y, ball.vx, ball.vy⟩ 0 k h

/-- Witness for C7: the spec scenario of a straight vertical drop onto the
paddle returns landing x = 400, inside [0, 800]. -/
theorem C7_witness :
    predict_ball_landing_x (⟨400, 520, 0, 6, 10, 1⟩ : Ball ℚ) [] 800 600
        ⟨350, 550, 108, 27⟩ 350 2000 6 = some 400 ∧
    (0 : ℤ) ≤ 400 ∧ (400 : ℤ) ≤ 800 := by
  have hrun : predict_ball_landing_x (⟨400, 520, 0, 6, 10, 1⟩ : Ball ℚ) [] 800 600
      ⟨350, 550, 108, 27⟩ 350 2000 6 = some 400 := by decide
  refine ⟨hrun, ?_⟩
  exact (C7_landing_x_in_bounds ⟨400, 520, 0, 6, 10, 1⟩ [] 800 600 ⟨350, 550, 108, 27⟩
    350 0 2000 6 12 400 (by norm_num) (by norm_num) (by norm_num) (by decide)).1 hrun

/-! ### predict_trajectory (src/game/physics.py lines 382-591), over the
reals: the visual-trail simulator duplicates the wall/paddle/brick rules
inline, with break semantics in the sub-step loop except for the paddle
block, and post-filters the collected points by an arc-length delay. -/

/-- The inline reflection of predict_trajectory: like resolveHit, but with
no did-reflect guard (the sources divide by math.hypot(nx, ny) or 1.0
directly).  Returns the new x, y, vx, vy. -/
noncomputable def trajResolve (x y vx vy dx0 dy0 dist0 rad : ℝ) : ℝ × ℝ × ℝ × ℝ :=
  let nx := if dist0 = 0 then 0 else dx0
  let ny := if dist0 = 0 then -1 else dy0
  let dist := if dist0 = 0 then 1 else dist0
  let nLen := if Real.sqrt (nx ^ 2 + ny ^ 2) = 0 then 1 else Real.sqrt (nx ^ 2 + ny ^ 2)
  let vDotN := vx * (nx / nLen) + vy * (ny / nLen)
  let vx1 := vx - 2 * vDotN * (nx / nLen)
  let vy1 := vy - 2 * vDotN * (ny / nLen)
  if 0 < rad - dist then
    (x + nx / nLen * (rad - dist), y + ny / nLen * (rad - dist), vx1, vy1)
  else (x, y, vx1, vy1)

/-- The paddle block of a predict_trajectory sub-step: evaluated only when
vy > 0; the two leg rectangles (break at the first hit), then the
semicircle only if the collided flag is still unset.  The hit thresholds
use the effective radius r.  Returns x, y, vx, vy, bounces, collided. -/
noncomputable def trajPaddlePhase (p : Paddle) (px r : ℤ) (x y vx vy : ℝ)
    (bounces : ℕ) (collided : Bool) : ℝ × ℝ × ℝ × ℝ × ℕ × Bool :=
  if 0 < vy then
    let bb : Ball ℝ := ⟨x, y, vx, vy, r, 1⟩
    if legDist bb (paddleLeftRect p px) ≤ (r : ℝ) then
      let q := trajResolve x y vx vy (x - (legClosest bb (paddleLeftRect p px)).1)
        (y - (legClosest bb (paddleLeftRect p px)).2)
        (legDist bb (paddleLeftRect p px)) (r : ℝ)
      (q.1, q.2.1, q.2.2.1, q.2.2.2, bounces + 1, true)
    else if legDist bb (paddleRightRect p px) ≤ (r : ℝ) then
      let q := trajResolve x y vx vy (x - (legClosest bb (paddleRightRect p px)).1)
        (y - (legClosest bb (paddleRightRect p px)).2)
        (legDist bb (paddleRightRect p px)) (r : ℝ)
      (q.1, q.2.1, q.2.2.1, q.2.2.2, bounces + 1, true)
    else if collided = false ∧ circleDist bb p px ≤ (p.width : ℝ) / 2 + (r : ℝ) then
      let q := trajResolve x y vx vy (x - (circleCenter p px).1)
        (y - (circleCenter p px).2) (circleDist bb p px) ((p.width : ℝ) / 2 + (r : ℝ))
      (q.1, q.2.1, q.2.2.1, q.2.2.2, bounces + 1, true)
    else (x, y, vx, vy, bounces, collided)
  else (x, y, vx, vy, bounces, collided)

/-- Outcome of one predict_trajectory sub-step: break out of the sub-step
loop, or proceed to the next sub-step carrying the collided flag. -/
inductive TrajStepOut where
  | brk (x y vx vy : ℝ) (pts : List (ℤ × ℤ)) (b : ℕ)
  | next (x y vx vy : ℝ) (pts : List (ℤ × ℤ)) (b : ℕ) (collided : Bool)

/-- One predict_trajectory sub-step: advance, append the point, walls
(break), paddle block (no break), brick check on the pre-paddle rect if
still uncollided (break), bottom check (break). -/
noncomputable def trajSubstep (width height : ℤ) (p : Paddle) (px r : ℤ)
    (rects : List Rect) (dx dy x y vx vy : ℝ) (pts : List (ℤ × ℤ))
    (bounces : ℕ) (collided : Bool) : TrajStepOut :=
  let x1 := x + dx
  let y1 := y + dy
  let pts1 := pts ++ [(pyInt x1, pyInt y1)]
  if x1 - (r : ℝ) ≤ 0 then .brk (r : ℝ) y1 (-vx) vy pts1 (bounces + 1)
  else if x1 + (r : ℝ) ≥ (width : ℝ) then
    .brk ((width - r : ℤ) : ℝ) y1 (-vx) vy pts1 (bounces + 1)
  else if y1 - (r : ℝ) ≤ 0 then .brk x1 (r : ℝ) vx (-vy) pts1 (bounces + 1)
  else
    match trajPaddlePhase p px r x1 y1 vx vy bounces collided with
    | (x2, y2, vx2, vy2, b2, c2) =>
      if c2 = false then
        match firstHitRect (ballFutureRect x1 y1 r) rects with
        | some rect =>
          if |((rect.centerx : ℤ) : ℝ) - x1| > |((rect.centery : ℤ) : ℝ) - y1| then
            .brk x2 y2 (-vx2) vy2 pts1 (b2 + 1)
          else .brk x2 y2 vx2 (-vy2) pts1 (b2 + 1)
        | none =>
          if y2 - (r : ℝ) > (height : ℝ) then .brk x2 y2 vx2 vy2 pts1 b2
          else .next x2 y2 vx2 vy2 pts1 b2 c2
      else
        if y2 - (r : ℝ) > (height : ℝ) then .brk x2 y2 vx2 vy2 pts1 b2
        else .next x2 y2 vx2 vy2 pts1 b2 c2

/-- The inner for s in range(steps) loop of predict_trajectory. -/
noncomputable def trajRunSteps (width height : ℤ) (p : Paddle) (px r : ℤ)
    (rects : List Rect) (dx dy : ℝ) :
    ℕ → ℝ → ℝ → ℝ → ℝ → List (ℤ × ℤ) → ℕ → Bool →
      ℝ × ℝ × ℝ × ℝ × List (ℤ × ℤ) × ℕ × Bool
  | 0, x, y, vx, vy, pts, b, c => (x, y, vx, vy, pts, b, c)
  | n + 1, x, y, vx, vy, pts, b, c =>
    match trajSubstep width height p px r rects dx dy x y vx vy pts b c with
    | .brk x1 y1 vx1 vy1 pts1 b1 => (x1, y1, vx1, vy1, pts1, b1, true)
    | .next x1 y1 vx1 vy1 pts1 b1 c1 =>
      trajRunSteps width height p px r rects dx dy n x1 y1 vx1 vy1 pts1 b1 c1

/-- The macro loop of predict_trajectory: while bounces <= max_bounces and
it < max_iter.  Returns the points, the macro-iteration count and the
final bounce count. -/
noncomputable def trajLoop (width height : ℤ) (p : Paddle) (px r : ℤ)
    (rects : List Rect) (stepc maxB : ℕ) :
    ℕ → ℝ → ℝ → ℝ → ℝ → List (ℤ × ℤ) → ℕ → List (ℤ × ℤ) × ℕ × ℕ
  | 0, _, _, _, _, pts, b => (pts, 0, b)
  | fuel + 1, x, y, vx, vy, pts, b =>
    if b ≤ maxB then
      if Real.sqrt (vx ^ 2 + vy ^ 2) = 0 then (pts, 1, b)
      else
        let n := max 1 (Int.toNat ⌈Real.sqrt (vx ^ 2 + vy ^ 2) / (stepc : ℝ)⌉)
        match trajRunSteps width height p px r rects (vx / (n : ℝ)) (vy / (n : ℝ))
            n x y vx vy pts b false with
        | (x1, y1, vx1, vy1, pts1, b1, _) =>
          let rest := trajLoop width height p px r rects stepc maxB fuel x1 y1 vx1 vy1 pts1 b1
          (rest.1, rest.2.1 + 1, rest.2.2)
    else (pts, 0, b)

/-- The simulation part of predict_trajectory (before the delay filter):
points, macro-iteration count, final bounces; max_iter = 2000. -/
noncomputable def predict_trajectory_sim (ball : Ball ℝ) (bricks : List Brick)
    (width height : ℤ) (p : Paddle) (px : ℤ) (maxB stepc : ℕ) :
    List (ℤ × ℤ) × ℕ × ℕ :=
  let r := pyInt ((ball.radius : ℝ) * ball.powerupScale)
  if ball.vx = 0 ∧ ball.vy = 0 then ([], 0, 0)
  else
    trajLoop width height p px r (liveBrickRects bricks) stepc maxB 2000
      ball.x ball.y ball.vx ball.vy [(pyInt ball.x, pyInt ball.y)] 0

/-- The arc-length delay filter at the end of predict_trajectory: keep the
points whose cumulative path length from the start reaches the threshold. -/
noncomputable def trajFilter (threshold : ℝ) :
    List (ℤ × ℤ) → ℝ × ℝ → ℝ → List (ℤ × ℤ)
  | [], _, _ => []
  | q :: rest, prev, cum =>
    let cur : ℝ × ℝ := ((q.1 : ℝ), (q.2 : ℝ))
    let cum1 := cum + Real.sqrt ((cur.1 - prev.1) ^ 2 + (cur.2 - prev.2) ^ 2)
    (if cum1 ≥ threshold then [(pyInt cur.1, pyInt cur.2)] else []) ++
      trajFilter threshold rest cur cum1

/-- predict_trajectory: simulate, then filter by speed * delay_s of
already-travelled path length. -/
noncomputable def predict_trajectory (ball : Ball ℝ) (bricks : List Brick)
    (width height : ℤ) (p : Paddle) (px : ℤ) (maxB stepc : ℕ) (delay : ℝ) :
    List (ℤ × ℤ) :=
  let pts := (predict_trajectory_sim ball bricks width height p px maxB stepc).1
  if Real.sqrt (ball.vx ^ 2 + ball.vy ^ 2) ≤ 0 then []
  else
    match pts with
    | [] => []
    | p0 :: rest =>
      trajFilter (Real.sqrt (ball.vx ^ 2 + ball.vy ^ 2) * delay) rest
        ((p0.1 : ℝ), (p0.2 : ℝ)) 0

/-! ### Termination and caps (C6) -/

/-- The uncapped landing loop runs at most its fuel in macro iterations. -/
theorem landingLoopNB_iter_le (env : SimEnv) (r : ℤ) (stepc : ℕ) :
    ∀ (fuel : ℕ) (s : SimState ℚ) (b : ℕ),
      (landingLoopNB env r stepc fuel s b).2.1 ≤ fuel := by
  intro fuel
  induction fuel with
  | zero =>
    intro s b
    simp [landingLoopNB]
  | succ fuel ih =>
    intro s b
    simp only [landingLoopNB]
    by_cases hd : s.vx ^ 2 + s.vy ^ 2 = 0
    · rw [if_pos hd]
      show (1 : ℕ) ≤ fuel + 1
      omega
    · rw [if_neg hd]
      cases hrun : runSteps env r
          (s.vx / ((pySteps (s.vx ^ 2 + s.vy ^ 2) stepc : ℕ) : ℚ))
          (s.vy / ((pySteps (s.vx ^ 2 + s.vy ^ 2) stepc : ℕ) : ℚ))
          (pySteps (s.vx ^ 2 + s.vy ^ 2) stepc) s b with
      | landed k0 b1 => simp
      | lost b1 => simp
      | done s1 b1 =>
        have := ih s1 b1
        simp only []
        omega

/-- The capped landing loop runs at most its fuel in macro iterations. -/
theorem landingLoop_iter_le (env : SimEnv) (r : ℤ) (stepc maxB : ℕ) :
    ∀ (fuel : ℕ) (s : SimState ℚ) (b : ℕ),
      (landingLoop env r stepc maxB fuel s b).2.1 ≤ fuel := by
  intro fuel
  induction fuel with
  | zero =>
    intro s b
    simp [landingLoop]
  | succ fuel ih =>
    intro s b
    simp only [landingLoop]
    by_cases hcap : b ≤ maxB
    · rw [if_pos hcap]
      by_cases hd : s.vx ^ 2 + s.vy ^ 2 = 0
      · rw [if_pos hd]
        show (1 : ℕ) ≤ fuel + 1
        omega
      · rw [if_neg hd]
        cases hrun : runSteps env r
            (s.vx / ((pySteps (s.vx ^ 2 + s.vy ^ 2) stepc : ℕ) : ℚ))
            (s.vy / ((pySteps (s.vx ^ 2 + s.vy ^ 2) stepc : ℕ) : ℚ))
            (pySteps (s.vx ^ 2 + s.vy ^ 2) stepc) s b with
        | landed k0 b1 => simp
        | lost b1 => simp
        | done s1 b1 =>
          have := ih s1 b1
          simp only []
          omega
    · rw [if_neg hcap]
      show (0 : ℕ) ≤ fuel + 1
      omega

/-- The capped landing loop stops at once when the bounce count already
exceeds the cap: no iteration runs and no result is produced. -/
theorem landingLoop_cap_stop (env : SimEnv) (r : ℤ) (stepc maxB : ℕ)
    (fuel : ℕ) (s : SimState ℚ) (b : ℕ) (h : maxB < b) :
    landingLoop env r stepc maxB fuel s b = (none, 0, b) := by
  cases fuel with
  | zero => rfl
  | succ fuel =>
    simp only [landingLoop]
    rw [if_neg (by omega)]

/-- The trajectory macro loop runs at most its fuel in macro iterations. -/
theorem trajLoop_iter_le (width height : ℤ) (p : Paddle) (px r : ℤ)
    (rects : List Rect) (stepc maxB : ℕ) :
    ∀ (fuel : ℕ) (x y vx vy : ℝ) (pts : List (ℤ × ℤ)) (b : ℕ),
      (trajLoop width height p px r rects stepc maxB fuel x y vx vy pts b).2.1 ≤ fuel := by
  intro fuel
  induction fuel with
  | zero =>
    intro x y vx vy pts b
    simp [trajLoop]
  | succ fuel ih =>
    intro x y vx vy pts b
    simp only [trajLoop]
    by_cases hcap : b ≤ maxB
    · rw [if_pos hcap]
      by_cases hd : Real.sqrt (vx ^ 2 + vy ^ 2) = 0
      · rw [if_pos hd]
        show (1 : ℕ) ≤ fuel + 1
        omega
      · rw [if_neg hd]
        cases hrun : trajRunSteps width height p px r rects
            (vx / ((max 1 (Int.toNat ⌈Real.sqrt (vx ^ 2 + vy ^ 2) / (stepc : ℝ)⌉) : ℕ) : ℝ))
            (vy / ((max 1 (Int.toNat ⌈Real.sqrt (vx ^ 2 + vy ^ 2) / (stepc : ℝ)⌉) : ℕ) : ℝ))
            (max 1 (Int.toNat ⌈Real.sqrt (vx ^ 2 + vy ^ 2) / (stepc : ℝ)⌉))
            x y vx vy pts b false with
        | mk x1 rest1 =>
          obtain ⟨y1, vx1, vy1, pts1, b1, c1⟩ := rest1
          have := ih x1 y1 vx1 vy1 pts1 b1
          simp only []
          omega
    · rw [if_neg hcap]
      show (0 : ℕ) ≤ fuel + 1
      omega

/-- The trajectory macro loop stops at once when the bounce count already
exceeds the cap. -/
theorem trajLoop_cap_stop (width height : ℤ) (p : Paddle) (px r : ℤ)
    (rects : List Rect) (stepc maxB fuel : ℕ) (x y vx vy : ℝ)
    (pts : List (ℤ × ℤ)) (b : ℕ) (h : maxB < b) :
    trajLoop width height p px r rects stepc maxB fuel x y vx vy pts b = (pts, 0, b) := by
  cases fuel with
  | zero => rfl
  | succ fuel =>
    simp only [trajLoop]
    rw [if_neg (by omega)]

/-- C6 (amended): every forward-simulation call terminates; each loop runs
at most max_iter macro iterations (2000 for predict_ball_landing_x, 3000
for predict_landing_x_trajectory, 2000 for predict_trajectory);
predict_landing_x_trajectory and predict_trajectory additionally stop as
soon as the bounce count exceeds their caps (checked at macro-iteration
entry), while predict_ball_landing_x counts bounces but imposes no bounce
cap. -/
theorem C6_iteration_and_bounce_caps :
    (∀ (ball : Ball ℚ) (bricks : List Brick) (width height : ℤ) (paddle : Paddle)
        (px : ℤ) (maxIter stepc : ℕ),
      (predict_ball_landing_x_stats ball bricks width height paddle px
        maxIter stepc).2.1 ≤ maxIter) ∧
    (∀ (ball : Ball ℚ) (bricks : List Brick) (width height : ℤ) (paddle : Paddle)
        (pdx : ℤ) (maxB stepc maxIter : ℕ),
      (predict_landing_x_trajectory_stats ball bricks width height paddle pdx
        maxB stepc maxIter).2.1 ≤ maxIter) ∧
    (∀ (ball : Ball ℝ) (bricks : List Brick) (width height : ℤ) (p : Paddle)
        (px : ℤ) (maxB stepc : ℕ),
      (predict_trajectory_sim ball bricks width height p px maxB stepc).2.1 ≤ 2000) ∧
    (∀ (env : SimEnv) (r : ℤ) (stepc maxB fuel : ℕ) (s : SimState ℚ) (b : ℕ),
      maxB < b → landingLoop env r stepc maxB fuel s b = (none, 0, b)) ∧
    (∀ (width height : ℤ) (p : Paddle) (px r : ℤ) (rects : List Rect)
        (stepc maxB fuel : ℕ) (x y vx vy : ℝ) (pts : List (ℤ × ℤ)) (b : ℕ),
      maxB < b →
        trajLoop width height p px r rects stepc maxB fuel x y vx vy pts b =
          (pts, 0, b)) := by
  refine ⟨?_, ?_, ?_, ?_, ?_⟩
  · intro ball bricks width height paddle px maxIter stepc
    unfold predict_ball_landing_x_stats
    split_ifs
    · simp
    · exact landingLoopNB_iter_le _ _ _ maxIter _ 0
  · intro ball bricks width height paddle pdx maxB stepc maxIter
    unfold predict_landing_x_trajectory_stats
    split_ifs
    · simp
    · exact landingLoop_iter_le _ _ _ _ maxIter _ 0
  · intro ball bricks width height p px maxB stepc
    unfold predict_trajectory_sim
    split_ifs
    · simp
    · exact trajLoop_iter_le _ _ _ _ _ _ _ _ 2000 _ _ _ _ _ 0
  · intro env r stepc maxB fuel s b h
    exact landingLoop_cap_stop env r stepc maxB fuel s b h
  · intro width height p px r rects stepc maxB fuel x y vx vy pts b h
    exact trajLoop_cap_stop width height p px r rects stepc maxB fuel x y vx vy pts b h

/-- Counterexample to C6 as stated: predict_ball_landing_x does not stop
at any bounce cap — on a narrow corridor it performs 13 bounces, more than
the claimed 12-bounce cap, and still returns a landing x. -/
theorem C6_counterexample :
    predict_ball_landing_x_stats (⟨11, 100, 2, 1, 10, 1⟩ : Ball ℚ) [] 24 600
        ⟨0, 137, 108, 27⟩ 0 2000 6 = (some 12, 27, 13) ∧ 12 < 13 := by
  exact ⟨by decide, by norm_num⟩

/-- Witness for C6 at a concrete over-cap state: the capped landing loop
with bounces = 13 > 12 stops immediately with no result. -/
theorem C6_witness :
    landingLoop ⟨800, 600, 550, []⟩ 10 6 12 3000 ⟨400, 300, 3, 4⟩ 13 = (none, 0, 13) :=
  C6_iteration_and_bounce_caps.2.2.2.1 ⟨800, 600, 550, []⟩ 10 6 12 3000
    ⟨400, 300, 3, 4⟩ 13 (by norm_num)

/-! ### The live engine ignores the power-up scale (C10) -/

/-- The live ball rect is independent of the power-up scale. -/
theorem Ball_rect_scale {α : Type} [LinearOrderedField α] [FloorRing α]
    (b : Ball α) (s : α) :
    Ball.rect { b with powerupScale := s } = Ball.rect b := rfl

/-- The brick-hit velocity flip is independent of the power-up scale. -/
theorem brickFlip_scale {α : Type} [LinearOrderedField α] (b : Ball α) (s : α)
    (br : Brick) :
    brickFlip { b with powerupScale := s } br =
      { brickFlip b br with powerupScale := s } := by
  cases b with
  | mk x y vx vy r sc =>
    simp only [brickFlip]
    split_ifs <;> rfl

/-- The live brick scan is independent of the power-up scale: the scale is
only carried through to the returned ball. -/
theorem brickScan_scale {α : Type} [LinearOrderedField α] [FloorRing α]
    (b : Ball α) (s : α) :
    ∀ (L : List Brick) (i : ℕ),
      brickScan { b with powerupScale := s } L i =
        Option.map (fun q => (q.1, { q.2 with powerupScale := s })) (brickScan b L i) := by
  intro L
  induction L with
  | nil => intro i; rfl
  | cons br rest ih =>
    intro i
    simp only [brickScan]
    have hrect : Ball.rect { b with powerupScale := s } = Ball.rect b := rfl
    rw [hrect]
    by_cases hh : br.hit = true
    · rw [if_pos hh, if_pos hh]
      exact ih (i + 1)
    · rw [if_neg hh, if_neg hh]
      by_cases hc : (Ball.rect b).collides br.rect = true
      · rw [if_pos hc, if_pos hc]
        rw [Option.map_some']
        rw [brickFlip_scale]
      · rw [if_neg hc, if_neg hc]
        exact ih (i + 1)

/-- The live wall check is independent of the power-up scale. -/
theorem check_wall_collision_scale {α : Type} [LinearOrderedField α]
    (b : Ball α) (s : α) (w h : ℤ) :
    check_wall_collision { b with powerupScale := s } w h =
      ((check_wall_collision b w h).1,
       { (check_wall_collision b w h).2 with powerupScale := s }) := by
  cases b with
  | mk x y vx vy r sc =>
    simp only [check_wall_collision]
    split_ifs <;> rfl

/-- The shared hit-resolution core is independent of the power-up scale. -/
theorem resolveHit_scale (b : Ball ℝ) (s dx0 dy0 dist0 rad : ℝ) :
    resolveHit { b with powerupScale := s } dx0 dy0 dist0 rad =
      ((resolveHit b dx0 dy0 dist0 rad).1,
       { (resolveHit b dx0 dy0 dist0 rad).2 with powerupScale := s }) := by
  cases b with
  | mk x y vx vy r sc =>
    simp only [resolveHit]
    split_ifs <;> rfl

/-- The leg-rectangle sub-test is independent of the power-up scale. -/
theorem resolveLeg_scale (b : Ball ℝ) (s : ℝ) (rect : Rect) :
    resolveLeg { b with powerupScale := s } rect =
      Option.map (fun q => (q.1, { q.2 with powerupScale := s })) (resolveLeg b rect) := by
  cases b with
  | mk x y vx vy r sc =>
    have hc1 : legClosest (Ball.mk x y vx vy r s) rect =
        legClosest (Ball.mk x y vx vy r sc) rect := rfl
    have hd1 : legDist (Ball.mk x y vx vy r s) rect =
        legDist (Ball.mk x y vx vy r sc) rect := rfl
    simp only [resolveLeg]
    rw [show ({ Ball.mk x y vx vy r sc with powerupScale := s } : Ball ℝ) =
        Ball.mk x y vx vy r s from rfl, hc1, hd1]
    split_ifs with h
    · rw [Option.map_some']
      exact congrArg some (resolveHit_scale (Ball.mk x y vx vy r sc) s _ _ _ _)
    · rfl

/-- The semicircle sub-test is independent of the power-up scale. -/
theorem resolveCircle_scale (b : Ball ℝ) (s : ℝ) (p : Paddle) (px : ℤ) :
    resolveCircle { b with powerupScale := s } p px =
      Option.map (fun q => (q.1, { q.2 with powerupScale := s })) (resolveCircle b p px) := by
  cases b with
  | mk x y vx vy r sc =>
    have hd1 : circleDist (Ball.mk x y vx vy r s) p px =
        circleDist (Ball.mk x y vx vy r sc) p px := rfl
    simp only [resolveCircle]
    rw [show ({ Ball.mk x y vx vy r sc with powerupScale := s } : Ball ℝ) =
        Ball.mk x y vx vy r s from rfl, hd1]
    split_ifs with h
    · rw [Option.map_some']
      exact congrArg some (resolveHit_scale (Ball.mk x y vx vy r sc) s _ _ _ _)
    · rfl

/-- The semicircle phase is independent of the power-up scale. -/
theorem paddleCirclePhase_scale (b : Ball ℝ) (s : ℝ) (p : Paddle) (px : ℤ) :
    paddleCirclePhase { b with powerupScale := s } p px =
      ((paddleCirclePhase b p px).1,
       { (paddleCirclePhase b p px).2 with powerupScale := s }) := by
  simp only [paddleCirclePhase, resolveCircle_scale]
  cases hr : resolveCircle b p px with
  | none => rfl
  | some q =>
    obtain ⟨d, b1⟩ := q
    rfl

/-- The live paddle check is independent of the power-up scale. -/
theorem check_paddle_collision_scale (b : Ball ℝ) (s : ℝ) (p : Paddle) (px : ℤ) :
    check_paddle_collision { b with powerupScale := s } p px =
      ((check_paddle_collision b p px).1,
       { (check_paddle_collision b p px).2 with powerupScale := s }) := by
  have hvy : ({ b with powerupScale := s } : Ball ℝ).vy = b.vy := rfl
  simp only [check_paddle_collision, hvy, resolveLeg_scale]
  by_cases h : b.vy ≤ 0
  · rw [if_pos h, if_pos h]
  · rw [if_neg h, if_neg h]
    cases h1 : resolveLeg b (paddleLeftRect p px) with
    | some q =>
      obtain ⟨d, b1⟩ := q
      rw [Option.map_some']
      cases d with
      | true => rfl
      | false =>
        show paddleCirclePhase { b1 with powerupScale := s } p px = _
        rw [paddleCirclePhase_scale]
        simp
    | none =>
      rw [Option.map_none']
      cases h2 : resolveLeg b (paddleRightRect p px) with
      | some q =>
        obtain ⟨d, b1⟩ := q
        rw [Option.map_some']
        cases d with
        | true => rfl
        | false =>
          show paddleCirclePhase { b1 with powerupScale := s } p px = _
          rw [paddleCirclePhase_scale]
          simp
      | none =>
        rw [Option.map_none']
        exact paddleCirclePhase_scale b s p px

/-- C10: the live collision engine ignores the transient power-up scale —
the ball rect, the brick scan, the wall check and the paddle check are all
invariant under changing powerupScale (which is merely carried through to
the output ball) — while the forward simulators use the effective radius
int(radius × scale): for the enlarged ball (100, 94, v=(3,6), radius 10,
scale 2) the effective radius is 20, the live brick check registers no hit
on the brick at (115, 95, 30, 10), yet the simulator sub-step with the
effective radius bounces off that brick (and with the base radius it does
not), and the landing prediction differs between scale 2 and scale 1. -/
theorem C10_scale_live_vs_sim :
    (∀ (b : Ball ℚ) (s : ℚ), Ball.rect { b with powerupScale := s } = Ball.rect b) ∧
    (∀ (b : Ball ℚ) (s : ℚ) (bricks : List Brick),
      check_brick_collision { b with powerupScale := s } bricks =
        Option.map (fun q => (q.1, { q.2 with powerupScale := s }))
          (check_brick_collision b bricks)) ∧
    (∀ (b : Ball ℚ) (s : ℚ) (w h : ℤ),
      check_wall_collision { b with powerupScale := s } w h =
        ((check_wall_collision b w h).1,
         { (check_wall_collision b w h).2 with powerupScale := s })) ∧
    (∀ (b : Ball ℝ) (s : ℝ) (p : Paddle) (px : ℤ),
      check_paddle_collision { b with powerupScale := s } p px =
        ((check_paddle_collision b p px).1,
         { (check_paddle_collision b p px).2 with powerupScale := s })) ∧
    (pyInt (((⟨100, 94, 3, 6, 10, 2⟩ : Ball ℚ).radius : ℚ) *
        (⟨100, 94, 3, 6, 10, 2⟩ : Ball ℚ).powerupScale) = 20 ∧
     check_brick_collision (⟨100, 94, 3, 6, 10, 2⟩ : Ball ℚ)
        [⟨115, 95, 30, 10, false, false⟩] = none ∧
     substep ⟨800, 600, 550, liveBrickRects [⟨115, 95, 30, 10, false, false⟩]⟩ 20
        (0 : ℚ) 0 ⟨100, 94, 3, 6⟩ = .cont ⟨100, 94, -3, 6⟩ 1 ∧
     substep ⟨800, 600, 550, liveBrickRects [⟨115, 95, 30, 10, false, false⟩]⟩ 10
        (0 : ℚ) 0 ⟨100, 94, 3, 6⟩ = .cont ⟨100, 94, 3, 6⟩ 0 ∧
     predict_ball_landing_x (⟨100, 94, 3, 6, 10, 2⟩ : Ball ℚ)
        [⟨115, 95, 30, 10, false, false⟩] 800 600 ⟨346, 130, 108, 27⟩ 0 2000 6 =
          some 109 ∧
     predict_ball_landing_x (⟨100, 94, 3, 6, 10, 1⟩ : Ball ℚ)
        [⟨115, 95, 30, 10, false, false⟩] 800 600 ⟨346, 130, 108, 27⟩ 0 2000 6 =
          some 98) := by
  refine ⟨fun b s => rfl, fun b s bricks => brickScan_scale b s bricks 0,
    fun b s w h => check_wall_collision_scale b s w h,
    fun b s p px => check_paddle_collision_scale b s p px, ?_, ?_, ?_, ?_, ?_, ?_⟩
  · decide
  · decide
  · decide
  · decide
  · decide
  · decide

/-! ### The simulators do not mutate the live state (C8) -/

/-- The live heap a predictor call sees: the ball, brick list and paddle
objects.  In the source every heap effect is an attribute assignment
(ball.x = ..., brick.hit = True); the predictor bodies contain none — they
copy x/y/vx/vy and int(radius × scale) into locals and build a cached
brick-rect list, then loop over those locals only — so their store-level
embeddings return the store unchanged alongside the result. -/
structure GameStore (α : Type) where
  ball : Ball α
  bricks : List Brick
  paddle : Paddle
  deriving Repr

/-- predict_ball_landing_x as a transformer of the live store: the result
is computed from the copied fields and the store is left untouched. -/
def predict_ball_landing_x_st (st : GameStore ℚ) (width height startPaddleX : ℤ)
    (maxIter stepc : ℕ) : Option ℤ × GameStore ℚ :=
  (predict_ball_landing_x st.ball st.bricks width height st.paddle startPaddleX
    maxIter stepc, st)

/-- predict_landing_x_trajectory as a transformer of the live store. -/
def predict_landing_x_trajectory_st (st : GameStore ℚ) (width height paddleDrawX : ℤ)
    (maxB stepc maxIter : ℕ) : Option ℤ × GameStore ℚ :=
  (predict_landing_x_trajectory st.ball st.bricks width height st.paddle paddleDrawX
    maxB stepc maxIter, st)

/-- predict_trajectory as a transformer of the live store. -/
noncomputable def predict_trajectory_st (st : GameStore ℝ) (width height px : ℤ)
    (maxB stepc : ℕ) (delay : ℝ) : List (ℤ × ℤ) × GameStore ℝ :=
  (predict_trajectory st.ball st.bricks width height st.paddle px maxB stepc delay, st)

/-- C8: the three forward simulators never mutate the live state — their
store-level embeddings return the ball, every brick and the paddle exactly
as they were, the result being computed from the copied locals — and each
predictor reads the brick list only through the cached rect list of
non-hit bricks built at entry: brick lists with equal caches give equal
predictions. -/
theorem C8_no_mutation :
    (∀ (st : GameStore ℚ) (width height startPaddleX : ℤ) (maxIter stepc : ℕ),
      predict_ball_landing_x_st st width height startPaddleX maxIter stepc =
        (predict_ball_landing_x st.ball st.bricks width height st.paddle
          startPaddleX maxIter stepc, st)) ∧
    (∀ (st : GameStore ℚ) (width height paddleDrawX : ℤ) (maxB stepc maxIter : ℕ),
      predict_landing_x_trajectory_st st width height paddleDrawX maxB stepc maxIter =
        (predict_landing_x_trajectory st.ball st.bricks width height st.paddle
          paddleDrawX maxB stepc maxIter, st)) ∧
    (∀ (st : GameStore ℝ) (width height px : ℤ) (maxB stepc : ℕ) (delay : ℝ),
      predict_trajectory_st st width height px maxB stepc delay =
        (predict_trajectory st.ball st.bricks width height st.paddle px maxB stepc
          delay, st)) ∧
    (∀ (ball : Ball ℚ) (bricks bricks' : List Brick) (width height startPaddleX : ℤ)
        (paddle : Paddle) (maxIter stepc : ℕ),
      liveBrickRects bricks = liveBrickRects bricks' →
        predict_ball_landing_x ball bricks width height paddle startPaddleX
            maxIter stepc =
          predict_ball_landing_x ball bricks' width height paddle startPaddleX
            maxIter stepc) ∧
    (∀ (ball : Ball ℚ) (bricks bricks' : List Brick) (width height paddleDrawX : ℤ)
        (paddle : Paddle) (maxB stepc maxIter : ℕ),
      liveBrickRects bricks = liveBrickRects bricks' →
        predict_landing_x_trajectory ball bricks width height paddle paddleDrawX
            maxB stepc maxIter =
          predict_landing_x_trajectory ball bricks' width height paddle paddleDrawX
            maxB stepc maxIter) ∧
    (∀ (ball : Ball ℝ) (bricks bricks' : List Brick) (width height px : ℤ)
        (p : Paddle) (maxB stepc : ℕ) (delay : ℝ),
      liveBrickRects bricks = liveBrickRects bricks' →
        predict_trajectory ball bricks width height p px maxB stepc delay =
          predict_trajectory ball bricks' width height p px maxB stepc delay) := by
  refine ⟨fun st w h s0 mi sc => rfl, fun st w h pd mb sc mi => rfl,
    fun st w h px mb sc d => rfl, ?_, ?_, ?_⟩
  · intro ball bricks bricks' width height startPaddleX paddle maxIter stepc h
    simp only [predict_ball_landing_x, predict_ball_landing_x_stats, h]
  · intro ball bricks bricks' width height paddleDrawX paddle maxB stepc maxIter h
    simp only [predict_landing_x_trajectory, predict_landing_x_trajectory_stats, h]
  · intro ball bricks bricks' width height px p maxB stepc delay h
    simp only [predict_trajectory, predict_trajectory_sim, h]

/-- Witness for C8 at concrete input: an already-hit brick is invisible to
the cache, so the prediction with it equals the prediction with no bricks. -/
theorem C8_witness :
    liveBrickRects [⟨115, 95, 30, 10, true, false⟩] = liveBrickRects [] ∧
    predict_ball_landing_x (⟨100, 94, 3, 6, 10, 1⟩ : Ball ℚ)
        [⟨115, 95, 30, 10, true, false⟩] 800 600 ⟨346, 130, 108, 27⟩ 0 2000 6 =
      predict_ball_landing_x (⟨100, 94, 3, 6, 10, 1⟩ : Ball ℚ) [] 800 600
        ⟨346, 130, 108, 27⟩ 0 2000 6 :=
  ⟨by decide,
   C8_no_mutation.2.2.2.1 (⟨100, 94, 3, 6, 10, 1⟩ : Ball ℚ)
     [⟨115, 95, 30, 10, true, false⟩] [] 800 600 0 ⟨346, 130, 108, 27⟩ 2000 6
     (by decide)⟩

/-! ### Sub-step versus the live collision rules (C2) -/

/-- The cached rect list of a cons: an already-hit head is skipped. -/
theorem liveBrickRects_cons (br : Brick) (rest : List Brick) :
    liveBrickRects (br :: rest) =
      if br.hit then liveBrickRects rest else br.rect :: liveBrickRects rest := by
  by_cases hh : br.hit = true
  · simp [liveBrickRects, List.filter_cons, hh]
  · simp only [Bool.not_eq_true] at hh
    simp [liveBrickRects, List.filter_cons, hh]

/-- The ball rect of the simulators equals the live Ball.rect at the same
center and radius. -/
theorem ballFutureRect_eq_rect {α : Type} [LinearOrderedField α] [FloorRing α]
    (x y vx vy : α) (r : ℤ) (sc : α) :
    ballFutureRect x y r = Ball.rect (Ball.mk x y vx vy r sc) := by
  simp [ballFutureRect, Ball.rect, mul_comm]

/-- When the live brick scan hits, the simulators' cached-rect scan finds
the rect of the same brick, and the live updated ball is its flip. -/
theorem scan_some_firstHit {α : Type} [LinearOrderedField α] [FloorRing α] (b : Ball α) :
    ∀ (L : List Brick) (i j : ℕ) (b1 : Ball α),
      brickScan b L i = some (j, b1) →
        ∃ br, br ∈ L ∧ firstHitRect (Ball.rect b) (liveBrickRects L) = some br.rect ∧
          b1 = brickFlip b br := by
  intro L
  induction L with
  | nil =>
    intro i j b1 h
    exact absurd h (by simp [brickScan])
  | cons br rest ih =>
    intro i j b1 h
    simp only [brickScan] at h
    by_cases hh : br.hit = true
    · rw [if_pos hh] at h
      obtain ⟨br', hmem, hfirst, hb1⟩ := ih (i + 1) j b1 h
      exact ⟨br', List.mem_cons_of_mem _ hmem,
        by rw [liveBrickRects_cons, if_pos hh]; exact hfirst, hb1⟩
    · rw [if_neg hh] at h
      by_cases hc : (Ball.rect b).collides br.rect = true
      · rw [if_pos hc] at h
        refine ⟨br, List.mem_cons_self br rest, ?_, ?_⟩
        · rw [liveBrickRects_cons, if_neg hh]
          simp only [firstHitRect]
          rw [if_pos hc]
        · exact (Prod.mk.injEq _ _ _ _ |>.mp (Option.some.inj h)).2.symm
      · rw [if_neg hc] at h
        obtain ⟨br', hmem, hfirst, hb1⟩ := ih (i + 1) j b1 h
        refine ⟨br', List.mem_cons_of_mem _ hmem, ?_, hb1⟩
        rw [liveBrickRects_cons, if_neg hh]
        simp only [firstHitRect]
        rw [if_neg hc]
        exact hfirst

/-- When the live brick scan misses, so does the cached-rect scan. -/
theorem scan_none_firstHit {α : Type} [LinearOrderedField α] [FloorRing α] (b : Ball α) :
    ∀ (L : List Brick) (i : ℕ),
      brickScan b L i = none →
        firstHitRect (Ball.rect b) (liveBrickRects L) = none := by
  intro L
  induction L with
  | nil => intro i _; rfl
  | cons br rest ih =>
    intro i h
    simp only [brickScan] at h
    by_cases hh : br.hit = true
    · rw [if_pos hh] at h
      rw [liveBrickRects_cons, if_pos hh]
      exact ih (i + 1) h
    · rw [if_neg hh] at h
      by_cases hc : (Ball.rect b).collides br.rect = true
      · rw [if_pos hc] at h
        exact absurd h (by simp)
      · rw [if_neg hc] at h
        rw [liveBrickRects_cons, if_neg hh]
        simp only [firstHitRect]
        rw [if_neg hc]
        exact ih (i + 1) h

/-- For a brick of even width, the cast integer center abscissa of its rect
is the float center brick.x + brick.width / 2 the live engine uses. -/
theorem centerx_cast (br : Brick) (h : 2 ∣ br.width) :
    (((Brick.rect br).centerx : ℤ) : ℚ) = (br.x : ℚ) + (br.width : ℚ) / 2 := by
  obtain ⟨k, hk⟩ := h
  have h2 : br.width / 2 = k := by omega
  simp only [Brick.rect, Rect.centerx, h2, hk]
  push_cast
  have h3 : (2 * k / 2 : ℤ) = k := by omega
  rw [h3]
  ring

/-- For a brick of even height, the cast integer center ordinate of its
rect is the float center brick.y + brick.height / 2. -/
theorem centery_cast (br : Brick) (h : 2 ∣ br.height) :
    (((Brick.rect br).centery : ℤ) : ℚ) = (br.y : ℚ) + (br.height : ℚ) / 2 := by
  obtain ⟨k, hk⟩ := h
  have h2 : br.height / 2 = k := by omega
  simp only [Brick.rect, Rect.centery, h2, hk]
  push_cast
  have h3 : (2 * k / 2 : ℤ) = k := by omega
  rw [h3]
  ring

/-- The sub-step as the spec words it, for comparison with substep: advance
the copied ball, then resolve the wall, paddle and brick rules with the
live engine functions check_wall_collision, check_paddle_collision and
check_brick_collision in that order. -/
noncomputable def substepSpec (width height : ℤ) (p : Paddle) (px : ℤ)
    (bricks : List Brick) (dx dy : ℝ) (b : Ball ℝ) : Ball ℝ :=
  let b0 := { b with x := b.x + dx, y := b.y + dy }
  let b1 := (check_wall_collision b0 width height).2
  let b2 := (check_paddle_collision b1 p px).2
  match check_brick_collision b2 bricks with
  | some q => q.2
  | none => b2

/-- C2 (amended): the landing predictors' sub-step applies the wall rule of
check_wall_collision restricted to one boundary per sub-step (each of the
left, right and top branches clamps and negates exactly as the live engine
does when only that boundary fires), and on brick grids of even widths and
heights its brick rule agrees with check_brick_collision at the live
radius: the cached-rect scan bounces off the rect of exactly the brick the
live scan finds, flipping the same velocity axis.  The paddle rule is
never applied: a descending ball reaching paddle.y ends the simulation
with int(x) instead of bouncing off the horseshoe paddle. -/
theorem C2_substep_rules :
    (∀ (width height paddleY : ℤ) (rects : List Rect) (s : SimState ℚ) (r : ℤ)
        (dx dy : ℚ),
      s.x + dx - (r : ℚ) ≤ 0 → ¬ (s.y + dy - (r : ℚ) ≤ 0) →
        substep ⟨width, height, paddleY, rects⟩ r dx dy s =
            .cont ⟨(r : ℚ), s.y + dy, -s.vx, s.vy⟩ 1 ∧
          check_wall_collision (Ball.mk (s.x + dx) (s.y + dy) s.vx s.vy r 1)
              width height =
            (true, Ball.mk (r : ℚ) (s.y + dy) (-s.vx) s.vy r 1)) ∧
    (∀ (width height paddleY : ℤ) (rects : List Rect) (s : SimState ℚ) (r : ℤ)
        (dx dy : ℚ),
      ¬ (s.x + dx - (r : ℚ) ≤ 0) → s.x + dx + (r : ℚ) ≥ ((width : ℤ) : ℚ) →
      ¬ (s.y + dy - (r : ℚ) ≤ 0) →
        substep ⟨width, height, paddleY, rects⟩ r dx dy s =
            .cont ⟨((width - r : ℤ) : ℚ), s.y + dy, -s.vx, s.vy⟩ 1 ∧
          check_wall_collision (Ball.mk (s.x + dx) (s.y + dy) s.vx s.vy r 1)
              width height =
            (true, Ball.mk ((width - r : ℤ) : ℚ) (s.y + dy) (-s.vx) s.vy r 1)) ∧
    (∀ (width height paddleY : ℤ) (rects : List Rect) (s : SimState ℚ) (r : ℤ)
        (dx dy : ℚ),
      ¬ (s.x + dx - (r : ℚ) ≤ 0) → ¬ (s.x + dx + (r : ℚ) ≥ ((width : ℤ) : ℚ)) →
      s.y + dy - (r : ℚ) ≤ 0 →
        substep ⟨width, height, paddleY, rects⟩ r dx dy s =
            .cont ⟨s.x + dx, (r : ℚ), s.vx, -s.vy⟩ 1 ∧
          check_wall_collision (Ball.mk (s.x + dx) (s.y + dy) s.vx s.vy r 1)
              width height =
            (true, Ball.mk (s.x + dx) (r : ℚ) s.vx (-s.vy) r 1)) ∧
    (∀ (width height paddleY : ℤ) (L : List Brick) (s : SimState ℚ) (r : ℤ)
        (dx dy : ℚ) (j : ℕ) (b1 : Ball ℚ),
      ¬ (s.x + dx - (r : ℚ) ≤ 0) → ¬ (s.x + dx + (r : ℚ) ≥ ((width : ℤ) : ℚ)) →
      ¬ (s.y + dy - (r : ℚ) ≤ 0) →
      ¬ (0 < s.vy ∧ s.y + dy + (r : ℚ) ≥ ((paddleY : ℤ) : ℚ)) →
      brickScan (Ball.mk (s.x + dx) (s.y + dy) s.vx s.vy r 1) L 0 = some (j, b1) →
      (∀ br ∈ L, 2 ∣ br.width ∧ 2 ∣ br.height) →
        substep ⟨width, height, paddleY, liveBrickRects L⟩ r dx dy s =
          .cont ⟨b1.x, b1.y, b1.vx, b1.vy⟩ 1) ∧
    (∀ (width height paddleY : ℤ) (rects : List Rect) (s : SimState ℚ) (r : ℤ)
        (dx dy : ℚ),
      ¬ (s.x + dx - (r : ℚ) ≤ 0) → ¬ (s.x + dx + (r : ℚ) ≥ ((width : ℤ) : ℚ)) →
      ¬ (s.y + dy - (r : ℚ) ≤ 0) →
      0 < s.vy ∧ s.y + dy + (r : ℚ) ≥ ((paddleY : ℤ) : ℚ) →
        substep ⟨width, height, paddleY, rects⟩ r dx dy s =
          .landed (pyInt (s.x + dx))) := by
  refine ⟨?_, ?_, ?_, ?_, ?_⟩
  · intro width height paddleY rects s r dx dy h1 h3
    constructor
    · simp only [substep]
      rw [if_pos h1]
    · simp only [check_wall_collision]
      rw [if_pos h1, if_neg h3]
  · intro width height paddleY rects s r dx dy h1 h2 h3
    constructor
    · simp only [substep]
      rw [if_neg h1, if_pos h2]
    · simp only [check_wall_collision]
      rw [if_neg h1, if_pos h2, if_neg h3]
  · intro width height paddleY rects s r dx dy h1 h2 h3
    constructor
    · simp only [substep]
      rw [if_neg h1, if_neg h2, if_pos h3]
    · simp only [check_wall_collision]
      rw [if_neg h1, if_neg h2, if_pos h3]
  · intro width height paddleY L s r dx dy j b1 h1 h2 h3 hP hscan hbr
    obtain ⟨br, hmem, hfirst, hb1⟩ := scan_some_firstHit _ L 0 j b1 hscan
    obtain ⟨hw2, hh2⟩ := hbr br hmem
    simp only [substep]
    rw [if_neg h1, if_neg h2, if_neg h3, if_neg hP]
    rw [ballFutureRect_eq_rect (s.x + dx) (s.y + dy) s.vx s.vy r (1 : ℚ), hfirst]
    dsimp only
    rw [centerx_cast br hw2, centery_cast br hh2]
    subst hb1
    simp only [brickFlip]
    by_cases hflip : |(br.x : ℚ) + (br.width : ℚ) / 2 - (s.x + dx)| >
        |(br.y : ℚ) + (br.height : ℚ) / 2 - (s.y + dy)|
    · rw [if_pos hflip, if_pos hflip]
    · rw [if_neg hflip, if_neg hflip]
  · intro width height paddleY rects s r dx dy h1 h2 h3 hP
    simp only [substep]
    rw [if_neg h1, if_neg h2, if_neg h3, if_pos hP]

/-- Counterexample to C2 as stated: at the same advanced state the live
paddle rule reflects the ball off the left leg of the horseshoe
(check_paddle_collision returns collided = True with vy negated and the
ball pushed out), while the landing predictors' sub-step instead ends the
simulation and returns int(x) — the paddle rule is never applied. -/
theorem C2_counterexample :
    substep (⟨800, 600, 550, []⟩ : SimEnv) 32 (0 : ℚ) 6 ⟨360, 554, 0, 6⟩ =
      .landed 360 ∧
    substepSpec 800 600 ⟨350, 550, 108, 27⟩ 350 [] (0 : ℝ) 6
        ⟨360, 554, 0, 6, 32, 1⟩ = ⟨360, 529, 0, -6, 32, 1⟩ := by
  refine ⟨by decide, ?_⟩
  have hadv : ({ (⟨360, 554, 0, 6, 32, 1⟩ : Ball ℝ) with
      x := (⟨360, 554, 0, 6, 32, 1⟩ : Ball ℝ).x + 0,
      y := (⟨360, 554, 0, 6, 32, 1⟩ : Ball ℝ).y + 6 } : Ball ℝ) =
      ⟨360, 560, 0, 6, 32, 1⟩ := by
    norm_num
  have hwall : check_wall_collision (⟨360, 560, 0, 6, 32, 1⟩ : Ball ℝ) 800 600 =
      (false, ⟨360, 560, 0, 6, 32, 1⟩) := by
    simp only [check_wall_collision]
    norm_num
  simp only [substepSpec]
  rw [hadv, hwall]
  rw [show ((false, (⟨360, 560, 0, 6, 32, 1⟩ : Ball ℝ)).2 : Ball ℝ) =
      ⟨360, 560, 0, 6, 32, 1⟩ from rfl]
  rw [paddleEvalLeft]
  rfl

/-- Witness for C2 at a concrete brick bounce: the sub-step continues with
exactly the velocity the live brick scan produces. -/
theorem C2_witness :
    brickScan (Ball.mk ((110 : ℚ) + 3) ((96 : ℚ) + 6) 3 6 10 1)
        [⟨115, 95, 30, 10, false, false⟩] 0 =
      some (0, ⟨113, 102, -3, 6, 10, 1⟩) ∧
    substep ⟨800, 600, 550, liveBrickRects [⟨115, 95, 30, 10, false, false⟩]⟩ 10
        (3 : ℚ) 6 ⟨110, 96, 3, 6⟩ = .cont ⟨113, 102, -3, 6⟩ 1 :=
  ⟨by decide,
   C2_substep_rules.2.2.2.1 800 600 550 [⟨115, 95, 30, 10, false, false⟩]
     ⟨110, 96, 3, 6⟩ 10 3 6 0 ⟨113, 102, -3, 6, 10, 1⟩ (by decide) (by decide)
     (by decide) (by decide) (by decide) (by decide)⟩

end BrickGame
